import Mathlib

/-!
Verification development for the CampfireDevTeam Party Box pipeline.

The definitions below are a shallow embedding of the Python sources under
`backend/party_box/`: `processing_campfires.py` (UnloadingCampfire,
SecurityCampfire, OffloadingCampfire), `campfire_loader.py` (GenericCamper,
GenericCampfire), `devteam_campfire.py` (campers and the AuditorCamper gate),
`error_handler.py` (ErrorHandler) and `riverboat_system.py` (RiverboatSystem).
Python dictionaries are modelled as association lists that keep insertion
order, floats as rationals, wall-clock timestamps as explicit parameters, and
exceptions as an explicit `Except` with one constructor per exception class
that matters to control flow.
-/

namespace Campfire

/-! ### A small pattern engine

`SecurityCampfire` matches its rule patterns with `re.search(p, s,
re.IGNORECASE)`.  Every pattern in the source uses only literal characters,
`\s*` / `\s+`, one-of / none-of character classes, and optional single
characters, so the engine below covers exactly those forms.  All comparisons
are case-insensitive, mirroring `re.IGNORECASE`. -/

/-- Character classes appearing in the source regexes. -/
inductive CClass where
  | ws
  | oneOf (cs : List Char)
  | noneOf (cs : List Char)
deriving DecidableEq, Repr

/-- One token of a compiled pattern: a literal character, an optional
character (`v?`), a single class character, or a repeated class
(`\s*`, `\s+`, `[^)]*`, `[^/\\]+`). -/
inductive RTok where
  | lit (c : Char)
  | opt (c : Char)
  | one (k : CClass)
  | many (k : CClass) (atLeastOne : Bool)
deriving DecidableEq, Repr

/-- Case-insensitive character comparison (`re.IGNORECASE`). -/
def cieq (p d : Char) : Bool := p.toLower == d.toLower

/-- Membership of a character in a class; `\s` is the ASCII whitespace set. -/
def inClass (k : CClass) (d : Char) : Bool :=
  match k with
  | .ws => d == ' ' || d == '\t' || d == '\n' || d == '\r' || d == '\x0b' || d == '\x0c'
  | .oneOf cs => cs.any (fun c => cieq c d)
  | .noneOf cs => !(cs.any (fun c => cieq c d))

/-- Backtracking matcher anchored at the start of `s`.  `fuel` only bounds
recursion depth; every step strictly shrinks `ts.length + s.length`, so
`matchToks` below always supplies enough fuel. -/
def matchToksF : Nat → List RTok → List Char → Bool
  | 0, _, _ => false
  | Nat.succ f, ts, s =>
    match ts, s with
    | [], _ => true
    | .lit c :: ts2, d :: s2 => cieq c d && matchToksF f ts2 s2
    | .lit _ :: _, [] => false
    | .opt _ :: ts2, [] => matchToksF f ts2 []
    | .opt c :: ts2, d :: s2 => matchToksF f ts2 (d :: s2) || (cieq c d && matchToksF f ts2 s2)
    | .one k :: ts2, d :: s2 => inClass k d && matchToksF f ts2 s2
    | .one _ :: _, [] => false
    | .many _ true :: _, [] => false
    | .many k true :: ts2, d :: s2 => inClass k d && matchToksF f (.many k false :: ts2) s2
    | .many _ false :: ts2, [] => matchToksF f ts2 []
    | .many k false :: ts2, d :: s2 =>
        matchToksF f ts2 (d :: s2) || (inClass k d && matchToksF f (.many k false :: ts2) s2)

/-- Anchored match with adequate fuel. -/
def matchToks (ts : List RTok) (s : List Char) : Bool :=
  matchToksF (ts.length + s.length + 1) ts s

/-- Unanchored search, as `re.search` / a non-empty `re.findall`. -/
def rsearch (ts : List RTok) : List Char → Bool
  | [] => matchToks ts []
  | c :: s2 => matchToks ts (c :: s2) || rsearch ts s2

/-- Search a pattern inside a string. -/
def reSearch (ts : List RTok) (s : String) : Bool := rsearch ts s.toList

/-- Compile a literal string to pattern tokens. -/
def lits (s : String) : List RTok := s.toList.map RTok.lit

/-! ### Plain substring and strip helpers (Python `in`, `str.strip`) -/

def isPrefixCh : List Char → List Char → Bool
  | [], _ => true
  | _ :: _, [] => false
  | a :: as, b :: bs => a == b && isPrefixCh as bs

def subListCh (needle : List Char) : List Char → Bool
  | [] => isPrefixCh needle []
  | c :: rest => isPrefixCh needle (c :: rest) || subListCh needle rest

/-- Python `needle in hay` on strings (case-sensitive). -/
def strContains (hay needle : String) : Bool := subListCh needle.toList hay.toList

/-- Python `s.startswith(pre)`. -/
def strStartsWith (s pre : String) : Bool := isPrefixCh pre.toList s.toList

/-- Python `s.endswith(suf)`. -/
def strEndsWith (s suf : String) : Bool := isPrefixCh suf.toList.reverse s.toList.reverse

/-- Python `s.lower()`. -/
def strLower (s : String) : String := String.mk (s.toList.map Char.toLower)

/-- Helper for single-character `str.split`. -/
def splitChAux (c : Char) : List Char → List Char → List String
  | [], cur => [String.mk cur.reverse]
  | d :: rest, cur =>
      if d == c then String.mk cur.reverse :: splitChAux c rest []
      else splitChAux c rest (d :: cur)

/-- Python `s.split(c)` for a one-character separator (keeps empty parts). -/
def splitOnCh (c : Char) (s : String) : List String := splitChAux c s.toList []

def isPyWs (c : Char) : Bool :=
  c == ' ' || c == '\t' || c == '\n' || c == '\r' || c == '\x0b' || c == '\x0c'

/-- Python `str.strip()`. -/
def stripStr (s : String) : String :=
  String.mk (((s.toList.dropWhile isPyWs).reverse.dropWhile isPyWs).reverse)

/-- Order-preserving list concatenation of the images, i.e. the list of
entries appended by a Python `for` loop. -/
def concatMap (f : α → List β) : List α → List β
  | [] => []
  | x :: xs => f x ++ concatMap f xs

theorem mem_concatMap {f : α → List β} {l : List α} {x : α} {b : β}
    (hx : x ∈ l) (hb : b ∈ f x) : b ∈ concatMap f l := by
  induction l with
  | nil => cases hx
  | cons y ys ih =>
    rcases hx with _ | hx
    · exact List.mem_append_left _ hb
    · exact List.mem_append_right _ (ih (by assumption))

theorem concatMap_eq_nil_iff {f : α → List β} {l : List α} :
    concatMap f l = [] ↔ ∀ x ∈ l, f x = [] := by
  induction l with
  | nil => simp [concatMap]
  | cons y ys ih =>
    simp [concatMap, List.append_eq_nil, ih]

/-- Python association-list lookup (`dict.get`). -/
def alookup (m : List (String × String)) (k : String) : Option String :=
  (m.find? (fun kv => kv.1 == k)).map (·.2)

/-- Python dict assignment `m[k] = v` keeping first-insertion order. -/
def upsert (m : List (String × String)) (k v : String) : List (String × String) :=
  if m.any (fun kv => kv.1 == k) then
    m.map (fun kv => if kv.1 == k then (k, v) else kv)
  else m ++ [(k, v)]

/-- Source: `len(s.encode("utf-8"))`. -/
def utf8Len (s : String) : Nat := s.toList.foldl (fun n c => n + c.utf8Size) 0

/-! ### Security validation rules

`SecurityCampfire._initialize_security_rules`.  Each entry is the raw regex
text from the source (used verbatim inside error messages) paired with its
compiled form for the engine above.  The source writes them as raw Python
strings, e.g. the pattern text of the Unix traversal rule is backslash dot
backslash dot slash. -/

def quoteCh : Char := Char.ofNat 39
def lbraceCh : Char := Char.ofNat 123
def rbraceCh : Char := Char.ofNat 125

def lowerAlpha : List Char := "abcdefghijklmnopqrstuvwxyz".toList

def pathTraversalPatterns : List (String × List RTok) :=
  [ ("\\.\\./", lits "../"),
    ("\\.\\.\\\\", lits "..\\"),
    ("\\.\\.%2f", lits "..%2f"),
    ("\\.\\.%5c", lits "..%5c") ]

def systemPathsPatterns : List (String × List RTok) :=
  [ ("/etc/", lits "/etc/"),
    ("/root/", lits "/root/"),
    ("/proc/", lits "/proc/"),
    ("/sys/", lits "/sys/"),
    ("C:\\\\Windows", lits "C:\\Windows"),
    ("C:\\\\Program Files", lits "C:\\Program Files"),
    ("C:\\\\Users\\\\[^/\\\\]+\\\\AppData",
      lits "C:\\Users\\" ++ [.many (.noneOf ['/', '\\']) true] ++ lits "\\AppData") ]

def dangerousCommandsPatterns : List (String × List RTok) :=
  [ ("rm\\s+-rf", lits "rm" ++ [.many .ws true] ++ lits "-rf"),
    ("del\\s+/[sf]", lits "del" ++ [.many .ws true, .lit '/', .one (.oneOf ['s', 'f'])]),
    ("format\\s+[a-z]:", lits "format" ++ [.many .ws true, .one (.oneOf lowerAlpha), .lit ':']),
    ("mkfs\\.", lits "mkfs."),
    ("dd\\s+if=", lits "dd" ++ [.many .ws true] ++ lits "if="),
    ("sudo\\s+", lits "sudo" ++ [.many .ws true]),
    ("chmod\\s+777", lits "chmod" ++ [.many .ws true] ++ lits "777") ]

def codeInjectionPatterns : List (String × List RTok) :=
  [ ("eval\\s*\\(", lits "eval" ++ [.many .ws false, .lit '(']),
    ("exec\\s*\\(", lits "exec" ++ [.many .ws false, .lit '(']),
    ("__import__", lits "__import__"),
    ("subprocess\\.", lits "subprocess."),
    ("os\\.system", lits "os.system"),
    ("shell=True", lits "shell=True"),
    ("popen\\(", lits "popen("),
    ("execv?p?\\(", lits "exec" ++ [.opt 'v', .opt 'p', .lit '(']) ]

def networkAccessPatterns : List (String × List RTok) :=
  [ ("urllib\\.request", lits "urllib.request"),
    ("requests\\.", lits "requests."),
    ("socket\\.", lits "socket."),
    ("http\\.client", lits "http.client"),
    ("ftplib\\.", lits "ftplib."),
    ("smtplib\\.", lits "smtplib.") ]

def fileSystemPatterns : List (String × List RTok) :=
  [ ("open\\s*\\([^)]*[\"\\x27][/\\\\]",
      lits "open" ++ [.many .ws false, .lit '(', .many (.noneOf [')']) false,
        .one (.oneOf ['"', quoteCh]), .one (.oneOf ['/', '\\'])]),
    ("with\\s+open\\s*\\([^)]*[\"\\x27][/\\\\]",
      lits "with" ++ [.many .ws true] ++ lits "open" ++
        [.many .ws false, .lit '(', .many (.noneOf [')']) false,
         .one (.oneOf ['"', quoteCh]), .one (.oneOf ['/', '\\'])]),
    ("shutil\\.", lits "shutil."),
    ("tempfile\\.", lits "tempfile."),
    ("glob\\.", lits "glob.") ]

def sensitiveDataPatterns : List (String × List RTok) :=
  [ ("password\\s*=", lits "password" ++ [.many .ws false, .lit '=']),
    ("api_key\\s*=", lits "api_key" ++ [.many .ws false, .lit '=']),
    ("secret\\s*=", lits "secret" ++ [.many .ws false, .lit '=']),
    ("token\\s*=", lits "token" ++ [.many .ws false, .lit '=']),
    ("-----BEGIN\\s+PRIVATE\\s+KEY-----",
      lits "-----BEGIN" ++ [.many .ws true] ++ lits "PRIVATE" ++ [.many .ws true] ++ lits "KEY-----"),
    ("-----BEGIN\\s+RSA\\s+PRIVATE\\s+KEY-----",
      lits "-----BEGIN" ++ [.many .ws true] ++ lits "RSA" ++ [.many .ws true] ++
        lits "PRIVATE" ++ [.many .ws true] ++ lits "KEY-----") ]

/-- The `validation_rules` dictionary, in insertion order. -/
def validationRules : List (String × List (String × List RTok)) :=
  [ ("path_traversal", pathTraversalPatterns),
    ("system_paths", systemPathsPatterns),
    ("dangerous_commands", dangerousCommandsPatterns),
    ("code_injection", codeInjectionPatterns),
    ("network_access", networkAccessPatterns),
    ("file_system", fileSystemPatterns),
    ("sensitive_data", sensitiveDataPatterns) ]

/-! ### POSIX path model

`_validate_workspace_boundary` resolves paths with `pathlib.Path` on the
deployment platform (Linux containers).  Paths are modelled as an
absolute-flag plus segments; `resolve()` is lexical normalization relative to
an explicit current working directory, and the modelled filesystem contains
no symbolic links, so `Path.is_symlink()` is `False` for every path. -/

structure PPath where
  absolute : Bool
  segs : List String
deriving DecidableEq, Repr

/-- Source: `pathlib.PurePosixPath(s)`: split on `/`, dropping empty and `.` parts. -/
def parsePath (s : String) : PPath :=
  { absolute := strStartsWith s "/",
    segs := (splitOnCh '/' s).filter (fun seg => seg != "" && seg != ".") }

/-- Source: `base / s`: an absolute right operand replaces the base entirely. -/
def joinPath (base : PPath) (s : String) : PPath :=
  let p := parsePath s
  if p.absolute then p else { absolute := base.absolute, segs := base.segs ++ p.segs }

/-- Lexical `..` elimination; `..` at the root stays at the root. -/
def normalizeSegs (segs : List String) : List String :=
  segs.foldl (fun acc seg => if seg = ".." then acc.dropLast else acc ++ [seg]) []

/-- Source: `Path.resolve()` against the current working directory `cwd`. -/
def resolvePath (cwd : List String) (p : PPath) : List String :=
  if p.absolute then normalizeSegs p.segs else normalizeSegs (cwd ++ p.segs)

/-- Source: `str()` of a resolved (absolute) path. -/
def renderAbs (segs : List String) : String :=
  if segs.isEmpty then "/" else String.join (segs.map (fun seg => "/" ++ seg))

/-- Source: `Path(p).suffix.lower()` needs the final path component. -/
def pathName (p : String) : String := ((parsePath p).segs.getLast?).getD ""

/-- Source: `pathlib.PurePath.suffix`: from the last dot of the name, provided it is
neither the first nor the last character. -/
def pathSuffix (p : String) : String :=
  let cs := (pathName p).toList
  let n := cs.length
  match ((List.range n).filter
      (fun i => decide (0 < i) && decide (i < n - 1) && (cs.getD i ' ' == '.'))).getLast? with
  | some i => String.mk (cs.drop i)
  | none => ""

/-! ### SecurityCampfire: the eight validations -/

/-- Source: `self.max_file_size = 10 * 1024 * 1024`. -/
def maxFileSize : Nat := 10 * 1024 * 1024
/-- Source: `self.max_total_size = 50 * 1024 * 1024`. -/
def maxTotalSize : Nat := 50 * 1024 * 1024
/-- Source: `self.max_files = 100`. -/
def maxFiles : Nat := 100

def allowedFileExtensions : List String :=
  [".py", ".js", ".ts", ".html", ".css", ".json", ".yaml", ".yml",
   ".md", ".txt", ".sh", ".bat", ".ps1", ".sql", ".xml", ".csv"]

/-- Does any `path_traversal` rule match the path (`re.search`, first match
breaks the loop, so at most one error per path)? -/
def travSeqB (p : String) : Bool :=
  pathTraversalPatterns.any (fun pr => reSearch pr.2 p)

/-- Source: `file_path.startswith('/') or (len(file_path) > 1 and file_path[1] == ':')`. -/
def absPrefixB (p : String) : Bool :=
  strStartsWith p "/" ||
    (match p.toList with
     | _ :: c :: _ => c == ':'
     | _ => false)

/-- Per-path errors of `_validate_path_traversal`. -/
def pathTraversalErrs (p : String) : List String :=
  (if travSeqB p then ["Path traversal attempt detected in: " ++ p] else [])
  ++ (if absPrefixB p then ["Absolute path not allowed: " ++ p] else [])
  ++ (if p.toList.contains (Char.ofNat 0) then ["Null byte in path: " ++ p] else [])

/-- Source: `SecurityCampfire._validate_path_traversal` (the error list; the check
passes iff it is empty). -/
def validatePathTraversal (filePaths : List String) : List String :=
  concatMap pathTraversalErrs filePaths

/-- The string-prefix test `str(file_full_path).startswith(str(workspace_path))`
of `_validate_workspace_boundary`. -/
def wsPrefixB (cwd : List String) (workspaceRoot p : String) : Bool :=
  let wsSegs := resolvePath cwd (parsePath workspaceRoot)
  let fullSegs := resolvePath cwd (joinPath ⟨true, wsSegs⟩ p)
  strStartsWith (renderAbs fullSegs) (renderAbs wsSegs)

/-- Per-path errors of `_validate_workspace_boundary`; the modelled
filesystem has no symbolic links, so `is_symlink()` is false and the symlink
branch contributes nothing. -/
def boundaryErrs (cwd : List String) (workspaceRoot p : String) : List String :=
  if wsPrefixB cwd workspaceRoot p then [] else ["File outside workspace boundary: " ++ p]

/-- Source: `SecurityCampfire._validate_workspace_boundary`. -/
def validateWorkspaceBoundary (cwd : List String) (filePaths : List String)
    (workspaceRoot : String) : List String :=
  if workspaceRoot = "" then ["No workspace root specified"]
  else concatMap (boundaryErrs cwd workspaceRoot) filePaths

/-- The two per-file appends inside the `_validate_file_sizes` loop. -/
def fileSizeItemErrs (pc : String × String) : List String :=
  let n := utf8Len pc.2
  (if n > maxFileSize then
     ["File too large: " ++ pc.1 ++ " (" ++ toString n ++ " bytes, max: "
       ++ toString maxFileSize ++ ")"]
   else [])
  ++ (if n = 0 then ["Empty file detected: " ++ pc.1] else [])

/-- Source: `SecurityCampfire._validate_file_sizes` over the items of
`file_contents`: file-count error, then the per-file loop, then the running
total compared to the aggregate ceiling. -/
def validateFileSizes (items : List (String × String)) : List String :=
  (if items.length > maxFiles then
     ["Too many files: " ++ toString items.length ++ " (max: " ++ toString maxFiles ++ ")"]
   else [])
  ++ concatMap fileSizeItemErrs items
  ++ (let total := (items.map (fun pc => utf8Len pc.2)).sum
      if total > maxTotalSize then
        ["Total content too large: " ++ toString total ++ " bytes (max: "
          ++ toString maxTotalSize ++ ")"]
      else [])

/-- Source: Extension-to-MIME table of `_is_consistent_file_type`. -/
def consistencyTypeMapping : List (String × String) :=
  [(".py", "text/python"), (".js", "text/javascript"), (".ts", "text/typescript"),
   (".html", "text/html"), (".css", "text/css"), (".json", "application/json"),
   (".yaml", "text/yaml"), (".yml", "text/yaml"), (".md", "text/markdown"),
   (".txt", "text/plain")]

/-- Source: `SecurityCampfire._is_consistent_file_type`. -/
def isConsistentFileType (fileExt declaredType : String) : Bool :=
  let expected := (alookup consistencyTypeMapping fileExt).getD "text/plain"
  let top := ((splitOnCh '/' expected).headD "")
  strStartsWith declaredType top

/-- Source: `SecurityCampfire._validate_file_types`. -/
def validateFileTypes (filePaths : List String)
    (fileTypes : List (String × String)) : List String :=
  concatMap (fun p =>
    let ext := strLower (pathSuffix p)
    (if ext != "" && !(allowedFileExtensions.contains ext) then
       ["Disallowed file extension: " ++ p ++ " (" ++ ext ++ ")"]
     else [])
    ++ (let declared := (alookup fileTypes p).getD ""
        if declared != "" && !(isConsistentFileType ext declared) then
          ["Inconsistent file type: " ++ p ++ " (ext: " ++ ext ++ ", type: " ++ declared ++ ")"]
        else [])) filePaths

/-- Source: `SecurityCampfire._validate_content_structure`.  The modelled strings are
always UTF-8 encodable, so the `UnicodeEncodeError` branch never fires. -/
def validateContentStructure (items : List (String × String)) : List String :=
  concatMap (fun pc =>
    let content := pc.2
    let ls := splitOnCh '\n' content
    (if content.toList.contains (Char.ofNat 0) then
       ["Binary content detected in: " ++ pc.1]
     else [])
    ++ (match ls.findIdx? (fun l => l.length > 10000) with
        | some i => ["Extremely long line in " ++ pc.1 ++ " at line " ++ toString (i + 1)]
        | none => [])
    ++ (if ls.length > 50000 then
          ["Too many lines in " ++ pc.1 ++ ": " ++ toString ls.length]
        else [])) items

/-- One step of the `_check_content_for_patterns` loops: the body executed
for one `(category, pattern)` pair with the accumulated `(errors,
warnings)`. -/
def checkPatternStep (content source catName : String)
    (acc : List String × List String) (pr : String × List RTok) :
    List String × List String :=
  if reSearch pr.2 content then
    if catName = "code_injection" ∨ catName = "system_paths" ∨ catName = "dangerous_commands" then
      (acc.1 ++ ["Dangerous " ++ catName ++ " pattern in " ++ source ++ ": " ++ pr.1], acc.2)
    else if catName = "network_access" ∨ catName = "file_system" then
      (acc.1, acc.2 ++ ["Potentially risky " ++ catName ++ " pattern in " ++ source ++ ": " ++ pr.1])
    else if catName = "sensitive_data" then
      (acc.1 ++ ["Sensitive data pattern detected in " ++ source], acc.2)
    else acc
  else acc

/-- Source: `SecurityCampfire._check_content_for_patterns`. -/
def checkContentForPatterns (content source : String) : List String × List String :=
  validationRules.foldl
    (fun acc cat => cat.2.foldl (checkPatternStep content source cat.1) acc)
    ([], [])

/-- Source: `_validate_dangerous_patterns`: the task text first, then every file. -/
def validateDangerousPatterns (items : List (String × String)) (task : String) :
    List String × List String :=
  let taskRes := checkContentForPatterns task "task"
  let fileErrs := concatMap (fun pc => (checkContentForPatterns pc.2 pc.1).1) items
  let fileWarns := concatMap (fun pc => (checkContentForPatterns pc.2 pc.1).2) items
  (taskRes.1 ++ fileErrs, taskRes.2 ++ fileWarns)

def suspiciousTaskPatterns : List (String × List RTok) :=
  [ ("delete\\s+all", lits "delete" ++ [.many .ws true] ++ lits "all"),
    ("drop\\s+table", lits "drop" ++ [.many .ws true] ++ lits "table"),
    ("format\\s+drive", lits "format" ++ [.many .ws true] ++ lits "drive"),
    ("install\\s+malware", lits "install" ++ [.many .ws true] ++ lits "malware"),
    ("bypass\\s+security", lits "bypass" ++ [.many .ws true] ++ lits "security"),
    ("disable\\s+antivirus", lits "disable" ++ [.many .ws true] ++ lits "antivirus") ]

def isB64Char (c : Char) : Bool := c.isAlphanum || c == '+' || c == '/'

def isHexDigitCh (c : Char) : Bool :=
  c.isDigit || ("abcdefABCDEF".toList.contains c)

/-- Number of `re.findall` matches of `[A-Za-z0-9+/]{50,}={0,2}`: the greedy
quantifier consumes each maximal base64 run, so this counts maximal runs of
length at least 50. -/
def b64go : List Char → Nat → Nat
  | [], run => if run ≥ 50 then 1 else 0
  | c :: rest, run =>
      if isB64Char c then b64go rest (run + 1)
      else (if run ≥ 50 then 1 else 0) + b64go rest 0

def b64count (s : String) : Nat := b64go s.toList 0

/-- Number of non-overlapping `re.findall` matches of `\\x[0-9a-fA-F]{2}`;
`fuel` only bounds the recursion depth. -/
def hexCountF : Nat → List Char → Nat
  | 0, _ => 0
  | Nat.succ f, l =>
    match l with
    | '\\' :: 'x' :: a :: b :: rest =>
        if isHexDigitCh a && isHexDigitCh b then 1 + hexCountF f rest
        else hexCountF f ('x' :: a :: b :: rest)
    | _ :: rest => hexCountF f rest
    | [] => 0

def hexCount (s : String) : Nat := hexCountF (s.toList.length + 1) s.toList

/-- Source: `SecurityCampfire._analyze_content_behavior`.  The source guards the
base64 count with a prior `re.search`; a count above three implies at least
one match, so the guard is absorbed. -/
def analyzeContentBehavior (items : List (String × String)) (task : String) : List String :=
  concatMap (fun pr =>
    if reSearch pr.2 task then ["Suspicious task request detected: " ++ pr.1] else [])
    suspiciousTaskPatterns
  ++ concatMap (fun pc =>
      (if b64count pc.2 > 3 then ["Potential obfuscated content in " ++ pc.1] else [])
      ++ (if hexCount pc.2 > 20 then ["Potential hex-encoded content in " ++ pc.1] else []))
    items

/-! ### The Party Box data model and the Unloading campfire -/

structure TorchAttachment where
  path : String
  content : String
  type : String
  timestamp : String
deriving DecidableEq, Repr

structure TorchContext where
  current_file : Option String
  project_structure : List String
  terminal_history : List String
deriving DecidableEq, Repr

structure Torch where
  claim : String
  task : String
  os : String
  workspace_root : String
  attachments : List TorchAttachment
  context : TorchContext
deriving DecidableEq, Repr

structure PartyBox where
  torch : Torch
  metadata : List (String × String)
deriving DecidableEq, Repr

/-- The working record produced by `UnloadingCampfire.process`.  The
`unpacked_at` / `unpacked_by` bookkeeping stamps are pure metadata read by
nothing downstream and are not modelled. -/
structure Unpacked where
  torch : Torch
  file_paths : List String
  file_contents : List (String × String)
  file_types : List (String × String)
  task_assertions : String
  workspace_root : String
  os_type : String
  current_file : Option String
  project_structure : List String
  terminal_history : List String
  metadata : List (String × String)
deriving DecidableEq, Repr

/-- Source: `UnloadingCampfire.process`: pure extraction of the envelope. -/
def unpack (pb : PartyBox) : Unpacked :=
  { torch := pb.torch,
    file_paths := pb.torch.attachments.map (·.path),
    file_contents := pb.torch.attachments.foldl (fun m a => upsert m a.path a.content) [],
    file_types := pb.torch.attachments.foldl (fun m a => upsert m a.path a.type) [],
    task_assertions := pb.torch.task,
    workspace_root := pb.torch.workspace_root,
    os_type := pb.torch.os,
    current_file := pb.torch.context.current_file,
    project_structure := pb.torch.context.project_structure,
    terminal_history := pb.torch.context.terminal_history,
    metadata := pb.metadata }

/-! ### The Validation Verdict -/

structure CheckResult where
  status : String
  details : List String
deriving DecidableEq, Repr

/-- The `security_checks` dictionary (its `timestamp` entry is a wall-clock
stamp, not modelled). -/
structure SecurityChecks where
  path_traversal : CheckResult
  workspace_boundary : CheckResult
  dangerous_patterns : CheckResult
  file_size_limits : CheckResult
  content_validation : CheckResult
  file_type_validation : CheckResult
  content_analysis : CheckResult
  rate_limiting : CheckResult
deriving DecidableEq, Repr

/-- A check entry after `process` ran: `failed` with the error details when
the sub-validation reported errors, otherwise the initial `passed` entry. -/
def mkCheck (errs : List String) : CheckResult :=
  if errs.isEmpty then ⟨"passed", []⟩ else ⟨"failed", errs⟩

/-- Source: `_check_rate_limits` appends no errors. -/
def rateLimitErrs : List String := []

def verdictChecks (cwd : List String) (u : Unpacked) : SecurityChecks :=
  { path_traversal := mkCheck (validatePathTraversal u.file_paths),
    workspace_boundary := mkCheck (validateWorkspaceBoundary cwd u.file_paths u.workspace_root),
    dangerous_patterns := mkCheck (validateDangerousPatterns u.file_contents u.task_assertions).1,
    file_size_limits := mkCheck (validateFileSizes u.file_contents),
    content_validation := mkCheck (validateContentStructure u.file_contents),
    file_type_validation := mkCheck (validateFileTypes u.file_paths u.file_types),
    content_analysis := mkCheck (analyzeContentBehavior u.file_contents u.task_assertions),
    rate_limiting := mkCheck rateLimitErrs }

/-- Source: `validation_errors` in the order the eight validations run. -/
def verdictErrors (cwd : List String) (u : Unpacked) : List String :=
  validatePathTraversal u.file_paths
  ++ validateWorkspaceBoundary cwd u.file_paths u.workspace_root
  ++ validateFileSizes u.file_contents
  ++ validateFileTypes u.file_paths u.file_types
  ++ validateContentStructure u.file_contents
  ++ (validateDangerousPatterns u.file_contents u.task_assertions).1
  ++ analyzeContentBehavior u.file_contents u.task_assertions
  ++ rateLimitErrs

def verdictWarnings (u : Unpacked) : List String :=
  (validateDangerousPatterns u.file_contents u.task_assertions).2

/-- Names of failed checks in dictionary insertion order
(the comprehension in `_determine_security_level`). -/
def failedCheckNames (c : SecurityChecks) : List String :=
  (if c.path_traversal.status = "failed" then ["path_traversal"] else [])
  ++ (if c.workspace_boundary.status = "failed" then ["workspace_boundary"] else [])
  ++ (if c.dangerous_patterns.status = "failed" then ["dangerous_patterns"] else [])
  ++ (if c.file_size_limits.status = "failed" then ["file_size_limits"] else [])
  ++ (if c.content_validation.status = "failed" then ["content_validation"] else [])
  ++ (if c.file_type_validation.status = "failed" then ["file_type_validation"] else [])
  ++ (if c.content_analysis.status = "failed" then ["content_analysis"] else [])
  ++ (if c.rate_limiting.status = "failed" then ["rate_limiting"] else [])

/-- Source: `SecurityCampfire._determine_security_level`. -/
def determineSecurityLevel (c : SecurityChecks) : String :=
  let failed := failedCheckNames c
  let critical := ["path_traversal", "workspace_boundary", "dangerous_patterns"]
  if failed.any (fun name => critical.contains name) then "critical_failure"
  else if failed.length > 2 then "high_risk"
  else if failed.length > 0 then "medium_risk"
  else "secure"

structure SecVerdict where
  secure : Bool
  checks : SecurityChecks
  errors : List String
  warnings : List String
  security_level : String
deriving DecidableEq, Repr

/-- The verdict `SecurityCampfire.process` computes before deciding whether
to raise (`secure = len(validation_errors) == 0`). -/
def securityVerdict (cwd : List String) (u : Unpacked) : SecVerdict :=
  { secure := (verdictErrors cwd u).isEmpty,
    checks := verdictChecks cwd u,
    errors := verdictErrors cwd u,
    warnings := verdictWarnings u,
    security_level := determineSecurityLevel (verdictChecks cwd u) }

/-! ### Exceptions

One constructor per Python exception class that steers control flow.  Three
distinct classes are all named `SecurityValidationError`: the one in
`error_handler.py` (imported by `processing_campfires.py` but shadowed by the
class statement at the bottom of that module), the module-local one in
`processing_campfires.py` (the class actually raised by
`SecurityCampfire.process`), and the module-local one in
`riverboat_system.py` (the class named by the `except` clause of the orchestrator).  `RiverboatProcessingError` here is the module-local class of
`riverboat_system.py`. -/
inductive PyExc where
  | ehSecurity (msg : String)
  | pcSecurity (msg : String)
  | rbSecurity (msg : String)
  | rbProcessing (msg : String)
  | otherExc (msg : String)
deriving DecidableEq, Repr

def PyExc.msg : PyExc → String
  | .ehSecurity m => m
  | .pcSecurity m => m
  | .rbSecurity m => m
  | .rbProcessing m => m
  | .otherExc m => m

/-- Is the exception an instance of any of the `SecurityValidationError`
classes? -/
def PyExc.isSecurityClass : PyExc → Bool
  | .ehSecurity _ => true
  | .pcSecurity _ => true
  | .rbSecurity _ => true
  | _ => false

def PyExc.isRbProcessing : PyExc → Bool
  | .rbProcessing _ => true
  | _ => false

structure Validated where
  unpacked : Unpacked
  verdict : SecVerdict
deriving DecidableEq, Repr

/-- Source: `SecurityCampfire.process`: returns the validated record when secure,
otherwise raises the `SecurityValidationError` class local to
`processing_campfires.py` with the technical message built by
`error_handler.handle_security_validation_error`. -/
def securityProcess (cwd : List String) (u : Unpacked) : Except PyExc Validated :=
  let v := securityVerdict cwd u
  if v.secure then .ok ⟨u, v⟩
  else .error (.pcSecurity
    ("Security validation failed: Security validation failed with "
      ++ toString v.errors.length ++ " errors"))

/-! ### Camper responses -/

structure FileSpec where
  path : String
  content : String
deriving DecidableEq, Repr

/-- The dictionary built by `format_response`, plus the two keys the audit
gates may add (`publication_blocked` / `block_reason`, absent keys modelled
as `false` / `none`) and the `specializations` key the loader variant adds. -/
structure CResponse where
  camper_role : String
  response_type : String
  content : String
  files_to_create : List FileSpec
  commands_to_execute : List String
  confidence_score : ℚ
  publication_blocked : Bool := false
  block_reason : Option String := none
  specializations : List String := []
deriving DecidableEq, Repr

/-- Source: `f"{confidence:.2f}"`.  Modelled as round-half-up on the rational value;
the source formats a binary double, which differs only on exact halves of
the double value, never hit by the scores in this system. -/
def fmt2 (q : ℚ) : String :=
  let scaled : Int := (200 * q.num + (q.den : Int)) / (2 * (q.den : Int))
  let ip := scaled / 100
  let fp := scaled % 100
  toString ip ++ "." ++ (if fp < 10 then "0" ++ toString fp else toString fp)

/-- Source: `0.7`, `0.1`, `0.8`, `0.9`, `0.3`, `0.5` as exact rationals. -/
def q07 : ℚ := mkRat 7 10
def q01 : ℚ := mkRat 1 10
def q08 : ℚ := mkRat 8 10
def q09 : ℚ := mkRat 9 10
def q03 : ℚ := mkRat 3 10
def q05 : ℚ := mkRat 5 10

/-- Source: `format_response` of `devteam_campfire.BaseCamper` (confidence threshold
is the fixed `0.7`; Python `confidence_score or self.confidence_threshold`
falls back when the argument is missing or `0.0`). -/
def formatResponseDT (role content : String) (rtype : String := "suggestion")
    (files : List FileSpec := []) (cmds : List String := [])
    (conf : Option ℚ := none) : CResponse :=
  { camper_role := role, response_type := rtype, content := content,
    files_to_create := files, commands_to_execute := cmds,
    confidence_score := match conf with
      | some c => if c = 0 then q07 else c
      | none => q07 }

/-- Source: `RequirementsGathererCamper.process_task`; the argument is the value
returned by `generate_response` (`.error e` models the `{"error": e}`
dictionary produced when the generation call raised). -/
def reqGathererProcessTask (gen : Except String String) : CResponse :=
  match gen with
  | .error e =>
      formatResponseDT "RequirementsGatherer" ("Error analyzing requirements: " ++ e)
        "suggestion" [] [] (some q01)
  | .ok content =>
      formatResponseDT "RequirementsGatherer" content "suggestion" [] [] (some q08)

/-! ### AuditorCamper: `verify_code_quality` -/

/-- Source: `AuditorCamper._check_security_vulnerabilities`: plain lowercase
substring tests. -/
def auditorSecurityPatterns : List (String × String) :=
  [("eval(", "Potential code injection via eval()"),
   ("exec(", "Potential code injection via exec()"),
   ("os.system(", "Direct system command execution"),
   ("subprocess.call(", "System command execution without validation"),
   ("input(", "Unvalidated user input"),
   ("raw_input(", "Unvalidated user input"),
   ("pickle.loads(", "Unsafe deserialization"),
   ("yaml.load(", "Unsafe YAML loading"),
   ("shell=true", "Shell injection vulnerability")]

def checkSecurityVulnerabilities (content filePath : String) : List String :=
  let cl := strLower content
  concatMap (fun pd =>
    if strContains cl pd.1 then [filePath ++ ": " ++ pd.2] else [])
    auditorSecurityPatterns

def countCh (cs : List Char) (c : Char) : Nat := (cs.filter (fun d => d == c)).length

/-- Source: `AuditorCamper._check_basic_syntax`. -/
def checkBasicSyntax (content filePath : String) : List String :=
  if strEndsWith filePath ".py" then
    let ls := splitOnCh '\n' content
    concatMap (fun (il : Nat × String) =>
      let stripped := (stripStr il.2).toList
      if stripped.isEmpty then []
      else
        let opens := countCh stripped '(' + countCh stripped '[' + countCh stripped lbraceCh
        let closes := countCh stripped ')' + countCh stripped ']' + countCh stripped rbraceCh
        if ((opens : Int) - closes).natAbs > 2 then
          [filePath ++ ":" ++ toString il.1 ++ ": Potential bracket mismatch"]
        else [])
      (ls.enumFrom 1)
  else if strEndsWith filePath ".js" || strEndsWith filePath ".ts" then
    if countCh content.toList lbraceCh ≠ countCh content.toList rbraceCh then
      [filePath ++ ": Unmatched curly braces"]
    else []
  else []

/-- Source: `AuditorCamper._check_command_safety` (first dangerous substring breaks
the inner loop, so one entry per offending command). -/
def dangerousCommandsList : List String :=
  ["rm -rf /", "del /f /s /q", "format", "fdisk", "dd if=",
   ":()\x7b :|:& \x7d;:", "sudo rm", "chmod 777"]

def checkCommandSafety (commands : List String) : List String :=
  concatMap (fun cmd =>
    let cl := stripStr (strLower cmd)
    if dangerousCommandsList.any (fun d => strContains cl d) then
      ["Dangerous command detected: " ++ cmd]
    else []) commands

/-- Issues the `verify_code_quality` loop appends for one response (each
append also clears `approved`). -/
def lowConfMsg (r : CResponse) : String :=
  r.camper_role ++ ": Low confidence score (" ++ fmt2 r.confidence_score ++ ")"

def auditorFileIssues (f : FileSpec) : List String :=
  (if (stripStr f.content) = "" then ["Empty code file: " ++ f.path] else [])
  ++ checkSecurityVulnerabilities f.content f.path
  ++ checkBasicSyntax f.content f.path

def responseIssues (r : CResponse) : List String :=
  (if r.confidence_score < q07 then [lowConfMsg r] else [])
  ++ (if r.response_type = "code" then concatMap auditorFileIssues r.files_to_create
      else if r.response_type = "command" then checkCommandSafety r.commands_to_execute
      else [])

def essentialCampers : List String := ["RequirementsGatherer", "OSExpert"]

def coverageIssues (rs : List CResponse) : List String :=
  concatMap (fun e =>
    if (rs.map (·.camper_role)).contains e then []
    else ["Missing essential camper response: " ++ e]) essentialCampers

/-- The full `issues` list of `verify_code_quality`, in append order. -/
def verifyIssues (rs : List CResponse) : List String :=
  concatMap responseIssues rs ++ coverageIssues rs

/-- Secondary lists kept by `verify_code_quality` (observability only). -/
def auditorSecurityChecks (rs : List CResponse) : List String :=
  concatMap (fun r =>
    if r.response_type = "code" then
      concatMap (fun f => checkSecurityVulnerabilities f.content f.path) r.files_to_create
    else if r.response_type = "command" then checkCommandSafety r.commands_to_execute
    else []) rs

def auditorSyntaxChecks (rs : List CResponse) : List String :=
  concatMap (fun r =>
    if r.response_type = "code" then
      concatMap (fun f =>
        (if (stripStr f.content) = "" then [f.path ++ ": Empty file"] else [])
        ++ checkBasicSyntax f.content f.path) r.files_to_create
    else []) rs

def auditorCoverageChecks (rs : List CResponse) : List String :=
  concatMap (fun e =>
    if (rs.map (·.camper_role)).contains e then []
    else ["Missing " ++ e ++ " analysis"]) essentialCampers

structure AuditResult where
  approved : Bool
  issues : List String
  security_checks : List String
  syntax_checks : List String
  coverage_checks : List String
  audit_summary : String
deriving DecidableEq, Repr

/-- Source: `AuditorCamper.verify_code_quality`: `approved` starts `True` and is
cleared exactly when an issue is appended, so it equals emptiness of
`issues`. -/
def verifyCodeQuality (rs : List CResponse) : AuditResult :=
  let issues := verifyIssues rs
  { approved := issues.isEmpty,
    issues := issues,
    security_checks := auditorSecurityChecks rs,
    syntax_checks := auditorSyntaxChecks rs,
    coverage_checks := auditorCoverageChecks rs,
    audit_summary := "Comprehensive audit completed. "
      ++ (if issues.isEmpty then "APPROVED" else "BLOCKED") ++ ": "
      ++ toString issues.length ++ " issues identified." }

/-! ### DevTeamCampfire: auditor gating step

Step 4 of `_process_with_specialized_campers`: run the audit over the
collected responses, append the audit-summary response (its text is built by
`_create_audit_summary`; the gate never reads it, so it is a parameter
here), and on failure mark every `code`-type response blocked. -/

def devteamMarkBlocked (r : CResponse) : CResponse :=
  if r.response_type = "code" then
    { r with publication_blocked := true,
             block_reason := some "Failed auditor gate verification" }
  else r

def devteamAuditSummaryResponse (summaryContent : String) (approved : Bool) : CResponse :=
  formatResponseDT "Auditor" summaryContent "suggestion" [] []
    (some (if approved then q09 else q03))

/-- The gating step: returns the final response batch and the
`audit_gate_status` recorded in the collaboration metadata. -/
def devteamApplyGate (summaryContent : String) (rs : List CResponse) :
    List CResponse × String :=
  let res := verifyCodeQuality rs
  let rs2 := rs ++ [devteamAuditSummaryResponse summaryContent res.approved]
  if !res.approved then (rs2.map devteamMarkBlocked, "BLOCKED")
  else (rs2, "PASSED")

/-! ### Error handler (`error_handler.py`) -/

/-- A `CampfireError` record; enum values and wall-clock timestamp modelled
as strings / omitted. -/
structure CampfireErr where
  error_type : String
  severity : String
  code : String
  message : String
  user_message : String
  technical_message : String
  suggested_actions : List String
  retryable : Bool
deriving DecidableEq, Repr

/-- Source: `self.max_history_size = 1000`. -/
def maxHistorySize : Nat := 1000

/-- Source: History update of `ErrorHandler._track_error`: append, then keep the last
`max_history_size` entries. -/
def trackError (h : List CampfireErr) (e : CampfireErr) : List CampfireErr :=
  let h2 := h ++ [e]
  if h2.length > maxHistorySize then h2.drop (h2.length - maxHistorySize) else h2

/-- Source: `self.error_counts` bump in `_track_error`. -/
def bumpCount (counts : List (String × Nat)) (code : String) : List (String × Nat) :=
  if counts.any (fun kv => kv.1 == code) then
    counts.map (fun kv => if kv.1 == code then (kv.1, kv.2 + 1) else kv)
  else counts ++ [(code, 1)]

structure HandlerState where
  error_history : List CampfireErr
  error_counts : List (String × Nat)
deriving DecidableEq, Repr

/-- Source: State effect of `ErrorHandler.create_error` (`_log_error` only logs). -/
def createError (st : HandlerState) (e : CampfireErr) : HandlerState :=
  { error_history := trackError st.error_history e,
    error_counts := bumpCount st.error_counts e.code }

/-! ### campfire_loader: GenericCamper and GenericCampfire -/

/-- Python `s.split(c, 1)[-1]`: everything after the first occurrence of
`c`, or the whole string when `c` does not occur. -/
def afterFirstCh (c : Char) (s : String) : String :=
  match splitOnCh c s with
  | [] => s
  | _ :: rest =>
      if rest.isEmpty then s else String.intercalate (String.mk [c]) rest

/-- The camper configuration a manifest entry provides
(`BaseCamper.__init__` in `campfire_loader.py`). -/
structure CamperCfg where
  role : String
  confidence_threshold : ℚ := q07
  specializations : List String := []
  codeGenEnabled : Bool := false
  codeGenDefaultExt : String := ".txt"
  commandGenEnabled : Bool := false
  maxCommands : Nat := 5
deriving DecidableEq, Repr

/-- Source: Source: `format_response` of the loader `BaseCamper` (adds the
`specializations` key). -/
def formatResponseG (cfg : CamperCfg) (content : String)
    (rtype : String := "suggestion") (files : List FileSpec := [])
    (cmds : List String := []) (conf : Option ℚ := none) : CResponse :=
  { camper_role := cfg.role, response_type := rtype, content := content,
    files_to_create := files, commands_to_execute := cmds,
    confidence_score := match conf with
      | some c => if c = 0 then cfg.confidence_threshold else c
      | none => cfg.confidence_threshold,
    specializations := cfg.specializations }

/-- Source: `GenericCamper._determine_response_type`. -/
def determineResponseType (cfg : CamperCfg) : String :=
  if cfg.specializations.any (fun s =>
      ["api_development", "ui_development", "infrastructure_as_code"].contains s) then "code"
  else if cfg.specializations.any (fun s =>
      ["command_line_operations", "debugging_commands"].contains s) then "command"
  else "suggestion"

/-- Loop state of `_extract_code_blocks`. -/
structure CBState where
  files : List FileSpec
  current_file : Option String
  current_content : List String
  in_code : Bool
deriving DecidableEq, Repr

/-- One line of the `_extract_code_blocks` loop. -/
def cbStep (st : CBState) (line : String) : CBState :=
  let ls := stripStr line
  if strStartsWith ls "```" then
    if st.in_code then
      { files := st.files ++ (match st.current_file with
          | some f => [⟨f, String.intercalate "\n" st.current_content⟩]
          | none => []),
        current_file := none, current_content := [], in_code := false }
    else
      { st with
        in_code := true,
        current_file :=
          (if ls.length > 3 then
            (let pot := stripStr (String.mk (ls.toList.drop 3))
             if pot.toList.contains '.' then some pot else st.current_file)
          else st.current_file) }
  else if st.in_code then
    { st with current_content := st.current_content ++ [line] }
  else if strStartsWith ls "# File:" || strStartsWith ls "// File:" then
    { st with current_file := some (stripStr (afterFirstCh ':' line)) }
  else st

/-- Source: Source: `GenericCamper._extract_code_blocks` (with the loader variant of the trailing
default-file fallback). -/
def extractCodeBlocksLoader (cfg : CamperCfg) (text : String) : List FileSpec :=
  let st := (splitOnCh '\n' text).foldl cbStep ⟨[], none, [], false⟩
  if st.files.isEmpty && !st.current_content.isEmpty then
    st.files ++ [⟨strLower cfg.role ++ "_output" ++ cfg.codeGenDefaultExt,
      String.intercalate "\n" st.current_content⟩]
  else st.files

/-- Commands one (stripped) line contributes in `_extract_commands`. -/
def lineCmds (osType line : String) : List String :=
  let ls := stripStr line
  if strLower osType = "windows" then
    if strStartsWith ls ">" || strStartsWith ls "cmd>" || strStartsWith ls "PS>"
        || strStartsWith ls "powershell>" then
      [stripStr (afterFirstCh '>' ls)]
    else if ["dir ", "cd ", "copy ", "del ", "mkdir ", "docker ", "python ", "pip "].any
        (fun pre => strStartsWith ls pre) then [ls]
    else []
  else
    if strStartsWith ls "$ " || strStartsWith ls "# " || strStartsWith ls "bash>"
        || strStartsWith ls "sh>" then
      [stripStr (afterFirstCh ' ' ls)]
    else if ["ls ", "cd ", "cp ", "rm ", "mkdir ", "docker ", "python ", "pip "].any
        (fun pre => strStartsWith ls pre) then [ls]
    else []

/-- Source: `GenericCamper._extract_commands` (the loop breaks once `max_commands`
entries have accumulated). -/
def extractCmdsGo (osType : String) (maxC : Nat) : List String → List String → List String
  | [], acc => acc
  | line :: rest, acc =>
      let acc2 := acc ++ lineCmds osType line
      if acc2.length ≥ maxC then acc2 else extractCmdsGo osType maxC rest acc2

def extractCommands (cfg : CamperCfg) (text osType : String) : List String :=
  extractCmdsGo osType cfg.maxCommands (splitOnCh '\n' text) []

/-- Source: `GenericCamper.process_task`; `gen` is the outcome of the
`generate_response` call (`.error e` models the `{"error": e}` dictionary the
camper returns when the generation service fails or raises).  A failure
yields a normally returned response, never an exception. -/
def genericProcessTask (cfg : CamperCfg) (osType : String)
    (gen : Except String String) : CResponse :=
  match gen with
  | .error e =>
      formatResponseG cfg ("Error in " ++ cfg.role ++ ": " ++ e) "suggestion" [] [] (some q01)
  | .ok content =>
      let rtype := determineResponseType cfg
      let files := if cfg.codeGenEnabled then extractCodeBlocksLoader cfg content else []
      let cmds := if cfg.commandGenEnabled then extractCommands cfg content osType else []
      formatResponseG cfg content rtype files cmds (some cfg.confidence_threshold)

/-! ### GenericCampfire: workflow execution and the configured audit gate -/

/-- The parts of a `GenericCampfire` manifest the workflow engine reads. -/
structure LoaderCfg where
  roles : List String
  auditorGatekeeper : Bool
  enableSecurityValidation : Bool
  dangerousPatterns : List String
deriving DecidableEq, Repr

structure GateResult where
  approved : Bool
  issues : List String
deriving DecidableEq, Repr

/-- Source: `GenericCampfire._apply_audit_gate`: trivially approved without an
`Auditor` camper or without the gatekeeper flag; otherwise low-confidence
responses plus (when security validation is enabled) configured dangerous
substrings inside generated code files. -/
def applyAuditGate (cfg : LoaderCfg) (rs : List CResponse) : GateResult :=
  if !(cfg.roles.contains "Auditor") then ⟨true, []⟩
  else if !cfg.auditorGatekeeper then ⟨true, []⟩
  else
    let lowConf := concatMap (fun r =>
      if r.confidence_score < q07 then [lowConfMsg r] else []) rs
    let patIssues :=
      if cfg.enableSecurityValidation then
        concatMap (fun r =>
          if r.response_type = "code" then
            concatMap (fun (f : FileSpec) =>
              concatMap (fun p =>
                if strContains (strLower f.content) (strLower p) then
                  ["Dangerous pattern detected: " ++ p]
                else []) cfg.dangerousPatterns) r.files_to_create
          else []) rs
      else []
    let issues := lowConf ++ patIssues
    ⟨issues.isEmpty, issues⟩

/-- The marking loop of `_execute_workflow` when the gate blocks. -/
def loaderMarkBlocked (r : CResponse) : CResponse :=
  if r.response_type = "code" then
    { r with publication_blocked := true,
             block_reason := some "Failed audit gate verification" }
  else r

structure Workflow where
  sequence : List String
  parallelExecution : Bool
  auditGate : Bool
  description : Option String
deriving DecidableEq, Repr

structure WorkflowMeta where
  workflow_type : String
  campers_involved : List String
  collaboration_steps : Nat
  audit_gate_status : String
deriving DecidableEq, Repr

/-- The dictionary the collaborate stage hands to `OffloadingCampfire`.  Only
the keys the collaborate implementations actually set are present; the
`.get` defaults of the offloader appear as `Option` fallbacks. -/
structure ProcessedData where
  camper_responses : List CResponse
  workflow_metadata : Option WorkflowMeta := none
  os_type : Option String := none
  workspace_root : Option String := none
  current_file : Option (Option String) := none
  project_structure : Option (List String) := none
  terminal_history : Option (List String) := none
  metadata : Option (List (String × String)) := none
deriving DecidableEq, Repr

/-- Source: `GenericCampfire._execute_workflow`.  `runCamper role prior` abstracts
`self.campers[role].process_task(torch_data, context)` — the generation
outcome for each role given the accumulated context.  When `auditGate` is
set but no `Auditor` camper exists, line 403 of the source reads the
unassigned local `audit_result` and raises `NameError`. -/
def executeWorkflow (cfg : LoaderCfg) (runCamper : String → List CResponse → CResponse)
    (wf : Workflow) : Except PyExc ProcessedData :=
  let rs := wf.sequence.foldl
    (fun acc role => if cfg.roles.contains role then acc ++ [runCamper role acc] else acc) []
  if wf.auditGate && cfg.roles.contains "Auditor" then
    let g := applyAuditGate cfg rs
    let rs2 := if !g.approved then rs.map loaderMarkBlocked else rs
    .ok { camper_responses := rs2,
          workflow_metadata := some
            { workflow_type := wf.description.getD "Unknown",
              campers_involved := rs2.map (·.camper_role),
              collaboration_steps := rs2.length,
              audit_gate_status := if g.approved then "PASSED" else "BLOCKED" } }
  else if wf.auditGate then
    .error (.otherExc "NameError: name audit_result is not defined")
  else
    .ok { camper_responses := rs,
          workflow_metadata := some
            { workflow_type := wf.description.getD "Unknown",
              campers_involved := rs.map (·.camper_role),
              collaboration_steps := rs.length,
              audit_gate_status := "PASSED" } }

/-! ### OffloadingCampfire: response packaging -/

/-- Source: `OffloadingCampfire._determine_file_type`. -/
def offloadTypeMapping : List (String × String) :=
  [(".py", "text/python"), (".js", "text/javascript"), (".ts", "text/typescript"),
   (".html", "text/html"), (".css", "text/css"), (".json", "application/json"),
   (".yaml", "text/yaml"), (".yml", "text/yaml"), (".md", "text/markdown"),
   (".txt", "text/plain"), (".sh", "text/shell"), (".bat", "text/batch"),
   (".ps1", "text/powershell")]

def determineFileType (p : String) : String :=
  (alookup offloadTypeMapping (strLower (pathSuffix p))).getD "text/plain"

structure Suggestion where
  camper : String
  content : String
  confidence : ℚ
deriving DecidableEq, Repr

structure ProcSummary where
  total_campers : Nat
  files_generated : Nat
  commands_generated : Nat
  suggestions_generated : Nat
deriving DecidableEq, Repr

structure RespResults where
  camper_responses : List CResponse
  files_to_create : List FileSpec
  commands_to_execute : List String
  suggestions : List Suggestion
  processing_summary : ProcSummary
deriving DecidableEq, Repr

structure RespMetadata where
  processed_at : String
  server_version : String
  packaged_by : String
  original_metadata : List (String × String)
deriving DecidableEq, Repr

/-- The outgoing Party Box envelope. -/
structure ResponsePartyBox where
  torch : Torch
  results : RespResults
  metadata : RespMetadata
deriving DecidableEq, Repr

/-- Source: `OffloadingCampfire.process`.  `nowS` stands for
`datetime.now().isoformat()`. -/
def offload (nowS : String) (pd : ProcessedData) : ResponsePartyBox :=
  let rs := pd.camper_responses
  let files := concatMap (·.files_to_create) rs
  let cmds := concatMap (·.commands_to_execute) rs
  let suggestions := concatMap (fun r =>
    if r.response_type = "suggestion" then
      [(⟨r.camper_role, r.content, r.confidence_score⟩ : Suggestion)]
    else []) rs
  let atts := files.map (fun f =>
    (⟨f.path, f.content, determineFileType f.path, nowS⟩ : TorchAttachment))
  { torch :=
      { claim := "response",
        task := "processed_response",
        os := pd.os_type.getD "linux",
        workspace_root := pd.workspace_root.getD "",
        attachments := atts,
        context :=
          { current_file := (pd.current_file.getD none),
            project_structure := pd.project_structure.getD [],
            terminal_history := pd.terminal_history.getD [] } },
    results :=
      { camper_responses := rs,
        files_to_create := files,
        commands_to_execute := cmds,
        suggestions := suggestions,
        processing_summary :=
          ⟨rs.length, files.length, cmds.length, suggestions.length⟩ },
    metadata :=
      { processed_at := nowS,
        server_version := "1.0.0",
        packaged_by := "OffloadingCampfire",
        original_metadata := pd.metadata.getD [] } }

/-! ### RiverboatSystem: the pipeline orchestrator -/

/-- Observable side effects of `receive_party_box`, in program order.
`storeIncoming` / `processContext` happen before the cache lookup;
generation-service traffic occurs only inside `stageCollaborate`. -/
inductive REvent where
  | storeIncoming
  | processContext
  | cacheHit
  | publishReceived
  | stageUnpack
  | stageValidate
  | stageCollaborate
  | stageOffload
  | cacheSet
  | storeOutgoing
  | publishCompleted
  | publishSecurityFailed
  | publishError
deriving DecidableEq, Repr

/-- Decidable equality for `Except` results, so concrete pipeline outcomes
can be settled by `decide`. -/
instance instDecEqExcept {ε α : Type} [DecidableEq ε] [DecidableEq α] :
    DecidableEq (Except ε α) :=
  fun x y =>
    match x, y with
    | .ok a, .ok b => decidable_of_iff (a = b) ⟨congrArg Except.ok, Except.ok.inj⟩
    | .error a, .error b =>
        decidable_of_iff (a = b) ⟨congrArg Except.error, Except.error.inj⟩
    | .ok _, .error _ => isFalse (fun h => Except.noConfusion h)
    | .error _, .ok _ => isFalse (fun h => Except.noConfusion h)

/-- The Redis response cache: key, value and absolute expiry time. -/
abbrev Cache : Type := List (String × ResponsePartyBox × Nat)

/-- Source: `get_cached_response`: a stored entry is visible until its TTL expires. -/
def cacheGet (c : Cache) (k : String) (now : Nat) : Option ResponsePartyBox :=
  match (c : List _).find? (fun e => e.1 == k) with
  | some e => if now < e.2.2 then some e.2.1 else none
  | none => none

/-- Source: `cache_response` (`SETEX`): overwrite the key with a fresh expiry. -/
def cacheSetF (c : Cache) (k : String) (v : ResponsePartyBox) (expiry : Nat) : Cache :=
  (k, v, expiry) :: (c : List _).filter (fun e => !(e.1 == k))

/-- Source: Source: `f"party_box:{claim}:{hash(task)}"`.  `hashFn` abstracts the per-process
per-process string hash (deterministic within one server process). -/
def cacheKey (hashFn : String → String) (pb : PartyBox) : String :=
  "party_box:" ++ pb.torch.claim ++ ":" ++ hashFn pb.torch.task

/-- The generic `except` clause of `receive_party_box`: only the
`SecurityValidationError` class defined in `riverboat_system.py` is
re-raised as-is; every other exception — including the distinct
`SecurityValidationError` class actually raised inside
`SecurityCampfire.process` — is wrapped into the module-local
`RiverboatProcessingError`. -/
def wrapReceiveExc (e : PyExc) : PyExc :=
  match e with
  | .rbSecurity m => .rbSecurity m
  | e2 => .rbProcessing ("Riverboat processing failed: " ++ e2.msg)

/-- Source: `RiverboatSystem.receive_party_box`.  `collab` abstracts the active
campfire (`None` models `self.active_campfire is None`); the cache TTL is
the literal `1800` seconds; `now` is the clock at request time.  Returns the
result, the emitted side effects in order, and the cache afterwards. -/
def receivePartyBox (cwd : List String) (nowS : String)
    (collab : Option (Validated → Except PyExc ProcessedData))
    (hashFn : String → String) (pb : PartyBox) (cache : Cache) (now : Nat) :
    Except PyExc ResponsePartyBox × List REvent × Cache :=
  let pre := [REvent.storeIncoming, REvent.processContext]
  let key := cacheKey hashFn pb
  match cacheGet cache key now with
  | some r => (.ok r, pre ++ [REvent.cacheHit], cache)
  | none =>
    let ev1 := pre ++ [REvent.publishReceived, REvent.stageUnpack]
    let u := unpack pb
    match securityProcess cwd u with
    | .error e =>
        (.error (wrapReceiveExc e), ev1 ++ [REvent.stageValidate, REvent.publishError], cache)
    | .ok v =>
      let ev2 := ev1 ++ [REvent.stageValidate]
      -- dead branch kept from the source: `process` already raised whenever
      -- the verdict was not secure, so `validated.get("secure")` holds here
      if !v.verdict.secure then
        (.error (wrapReceiveExc (.rbSecurity "Security validation failed")),
          ev2 ++ [REvent.publishSecurityFailed], cache)
      else
        match collab with
        | none =>
            (.error (wrapReceiveExc (.rbProcessing "No active campfire configured")),
              ev2 ++ [REvent.publishError], cache)
        | some f =>
          match f v with
          | .error e =>
              (.error (wrapReceiveExc e),
                ev2 ++ [REvent.stageCollaborate, REvent.publishError], cache)
          | .ok pd =>
            let resp := offload nowS pd
            (.ok resp,
              ev2 ++ [REvent.stageCollaborate, REvent.stageOffload, REvent.cacheSet,
                REvent.storeOutgoing, REvent.publishCompleted],
              cacheSetF cache key resp (now + 1800))

/-! ### General list lemmas used by several theorems -/

theorem isEmpty_false_of_mem {l : List α} {a : α} (h : a ∈ l) : l.isEmpty = false := by
  cases l with
  | nil => cases h
  | cons x xs => rfl

theorem getLastQ_concat (l : List α) (a : α) : (l ++ [a]).getLast? = some a := by
  induction l with
  | nil => rfl
  | cons x xs ih =>
    cases hxs : xs ++ [a] with
    | nil => exact absurd hxs (by simp)
    | cons y ys =>
      simp only [List.cons_append, List.getLast?_cons_cons, hxs] at *
      exact ih

theorem drop_append_le {l l2 : List α} {n : Nat} (h : n ≤ l.length) :
    (l ++ l2).drop n = l.drop n ++ l2 := by
  induction l generalizing n with
  | nil =>
    have : n = 0 := Nat.le_zero.mp h
    simp [this]
  | cons x xs ih =>
    cases n with
    | zero => simp
    | succ m =>
      simp only [List.cons_append, List.drop_succ_cons]
      exact ih (Nat.le_of_succ_le_succ h)

theorem concatMap_ite_singleton_eq_nil {p : α → Bool} {m : α → β} {l : List α} :
    concatMap (fun x => if p x then [m x] else []) l = [] ↔ ∀ x ∈ l, p x = false := by
  induction l with
  | nil => simp [concatMap]
  | cons y ys ih =>
    simp only [concatMap, List.append_eq_nil, ih, List.mem_cons]
    constructor
    · rintro ⟨h1, h2⟩ x hx
      rcases hx with rfl | hx
      · by_contra hpx
        rw [Bool.not_eq_false] at hpx
        simp [hpx] at h1
      · exact h2 x hx
    · intro h
      refine ⟨?_, fun x hx => h x (Or.inr hx)⟩
      have hy := h y (Or.inl rfl)
      simp [hy]

/-- Any error produced by `_validate_file_sizes` ends up in the aggregated
`validation_errors` list of the verdict. -/
theorem mem_verdictErrors_of_mem_sizes (cwd : List String) {u : Unpacked} {a : String}
    (h : a ∈ validateFileSizes u.file_contents) : a ∈ verdictErrors cwd u := by
  simp only [verdictErrors, List.mem_append]
  tauto

/-- A verdict with a member in its error list is not secure, and a check
built from a non-empty error list reads `failed`. -/
theorem not_secure_of_mem_errors {cwd : List String} {u : Unpacked} {a : String}
    (h : a ∈ verdictErrors cwd u) : (securityVerdict cwd u).secure = false := by
  simp [securityVerdict, isEmpty_false_of_mem h]

theorem mkCheck_status_failed {errs : List String} {a : String} (h : a ∈ errs) :
    (mkCheck errs).status = "failed" := by
  simp [mkCheck, isEmpty_false_of_mem h]

/-! ### Claim theorems -/

/-- C7.  For every attachment content whose UTF-8 size exceeds the
per-file ceiling `max_file_size` (10485760 bytes), `_validate_file_sizes`
records a `File too large` error, the `file_size_limits` check fails, and
the verdict is not secure; content of exactly the ceiling size contributes
no per-file error at all from the per-file loop. -/
theorem c7_per_file_size_ceiling (cwd : List String) (u : Unpacked) (p c : String)
    (hmem : (p, c) ∈ u.file_contents) :
    (utf8Len c > maxFileSize →
      ("File too large: " ++ p ++ " (" ++ toString (utf8Len c) ++ " bytes, max: "
        ++ toString maxFileSize ++ ")") ∈ (securityVerdict cwd u).errors
      ∧ (securityVerdict cwd u).checks.file_size_limits.status = "failed"
      ∧ (securityVerdict cwd u).secure = false)
    ∧ (utf8Len c = maxFileSize → fileSizeItemErrs (p, c) = []) := by
  constructor
  · intro hbig
    have hitem : ("File too large: " ++ p ++ " (" ++ toString (utf8Len c) ++ " bytes, max: "
        ++ toString maxFileSize ++ ")") ∈ fileSizeItemErrs (p, c) := by
      simp [fileSizeItemErrs, hbig]
    have hsizes : ("File too large: " ++ p ++ " (" ++ toString (utf8Len c) ++ " bytes, max: "
        ++ toString maxFileSize ++ ")") ∈ validateFileSizes u.file_contents := by
      simp only [validateFileSizes, List.mem_append]
      exact Or.inl (Or.inr (mem_concatMap hmem hitem))
    have herr := mem_verdictErrors_of_mem_sizes cwd hsizes
    refine ⟨herr, ?_, not_secure_of_mem_errors herr⟩
    have : (securityVerdict cwd u).checks.file_size_limits = mkCheck (validateFileSizes u.file_contents) := rfl
    rw [this]
    exact mkCheck_status_failed hsizes
  · intro hexact
    have h1 : ¬ utf8Len c > maxFileSize := by omega
    have h2 : utf8Len c ≠ 0 := by rw [hexact]; decide
    simp [fileSizeItemErrs, h1, h2]

/-- The `utf8Len` of `n` copies of a one-byte character is `n`; lets the
witness exercise the 10 MiB ceiling without evaluating a 10-MiB string. -/
theorem utf8Len_replicate_a (n : Nat) :
    utf8Len (String.mk (List.replicate n 'a')) = n := by
  have key : ∀ m acc, List.foldl (fun k c => k + Char.utf8Size c) acc (List.replicate m 'a')
      = acc + m := by
    intro m
    induction m with
    | zero => intro acc; simp [List.replicate]
    | succ m ih =>
      intro acc
      have ha : Char.utf8Size 'a' = 1 := by decide
      simp [List.replicate, ih, ha]
      omega
  simpa [utf8Len] using key n 0

def bigContentC7 : String := String.mk (List.replicate (maxFileSize + 1) 'a')
def exactContentC7 : String := String.mk (List.replicate maxFileSize 'a')

def unpackedC7 : Unpacked :=
  { torch := ⟨"generate_code", "store a big file", "linux", "/ws", [], ⟨none, [], []⟩⟩,
    file_paths := ["big.txt"],
    file_contents := [("big.txt", bigContentC7)],
    file_types := [("big.txt", "text/plain")],
    task_assertions := "store a big file",
    workspace_root := "/ws", os_type := "linux", current_file := none,
    project_structure := [], terminal_history := [], metadata := [] }

/-- Witness for C7 at a concrete 10485761-byte attachment and a concrete
10485760-byte attachment. -/
theorem c7_witness :
    utf8Len bigContentC7 > maxFileSize
    ∧ ("File too large: big.txt (" ++ toString (utf8Len bigContentC7) ++ " bytes, max: "
        ++ toString maxFileSize ++ ")") ∈ (securityVerdict [] unpackedC7).errors
    ∧ (securityVerdict [] unpackedC7).secure = false
    ∧ utf8Len exactContentC7 = maxFileSize
    ∧ fileSizeItemErrs ("ok.txt", exactContentC7) = [] := by
  have hbig : utf8Len bigContentC7 > maxFileSize := by
    rw [bigContentC7, utf8Len_replicate_a]
    omega
  have hexact : utf8Len exactContentC7 = maxFileSize := by
    rw [exactContentC7, utf8Len_replicate_a]
  have hmem : ("big.txt", bigContentC7) ∈ unpackedC7.file_contents := by
    exact List.mem_singleton.mpr rfl
  have hmain := c7_per_file_size_ceiling [] unpackedC7 "big.txt" bigContentC7 hmem
  have hmain2 := c7_per_file_size_ceiling [] unpackedC7 "ok.txt" exactContentC7
  exact ⟨hbig, (hmain.1 hbig).1, (hmain.1 hbig).2.2, hexact,
    ((c7_per_file_size_ceiling [] { unpackedC7 with
        file_contents := [("ok.txt", exactContentC7)] } "ok.txt" exactContentC7
      (List.mem_singleton.mpr rfl)).2) hexact⟩

/-- C10.  A zero-byte attachment content always yields an
`Empty file detected` error under the `file_size_limits` check, so an
envelope containing an empty attachment never reaches a secure verdict. -/
theorem c10_empty_attachment_not_secure (cwd : List String) (u : Unpacked) (p c : String)
    (hmem : (p, c) ∈ u.file_contents) (hz : utf8Len c = 0) :
    ("Empty file detected: " ++ p) ∈ (securityVerdict cwd u).errors
    ∧ (securityVerdict cwd u).checks.file_size_limits.status = "failed"
    ∧ (securityVerdict cwd u).secure = false := by
  have hitem : ("Empty file detected: " ++ p) ∈ fileSizeItemErrs (p, c) := by
    simp [fileSizeItemErrs, hz]
  have hsizes : ("Empty file detected: " ++ p) ∈ validateFileSizes u.file_contents := by
    simp only [validateFileSizes, List.mem_append]
    exact Or.inl (Or.inr (mem_concatMap hmem hitem))
  have herr := mem_verdictErrors_of_mem_sizes cwd hsizes
  refine ⟨herr, ?_, not_secure_of_mem_errors herr⟩
  have : (securityVerdict cwd u).checks.file_size_limits = mkCheck (validateFileSizes u.file_contents) := rfl
  rw [this]
  exact mkCheck_status_failed hsizes

def unpackedC10 : Unpacked :=
  { torch := ⟨"generate_code", "check this", "linux", "/ws", [], ⟨none, [], []⟩⟩,
    file_paths := ["e.txt"],
    file_contents := [("e.txt", "")],
    file_types := [("e.txt", "text/plain")],
    task_assertions := "check this",
    workspace_root := "/ws", os_type := "linux", current_file := none,
    project_structure := [], terminal_history := [], metadata := [] }

/-- Witness for C10 at a concrete empty attachment. -/
theorem c10_witness :
    ("Empty file detected: e.txt") ∈ (securityVerdict [] unpackedC10).errors
    ∧ (securityVerdict [] unpackedC10).secure = false := by
  have h := c10_empty_attachment_not_secure [] unpackedC10 "e.txt" ""
    (List.mem_singleton.mpr rfl) (by decide)
  exact ⟨h.1, h.2.2⟩

/-- One `_track_error` step keeps the history within the bound. -/
theorem trackError_length_le {h : List CampfireErr} (e : CampfireErr)
    (hle : h.length ≤ maxHistorySize) : (trackError h e).length ≤ maxHistorySize := by
  unfold trackError
  by_cases hover : (h ++ [e]).length > maxHistorySize
  · simp only [hover, if_pos]
    rw [List.length_drop]
    omega
  · simp only [hover, if_neg, not_false_iff]
    simp only [List.length_append, List.length_singleton] at *
    omega

/-- C9.  Every created error is appended at the end of the in-memory history of the handler; one tracking step preserves the `max_history_size` bound
(older entries are dropped from the front when it is hit); and any sequence
of error-creating operations starting from a fresh handler keeps the history
within 1000 entries. -/
theorem c9_bounded_error_history :
    (∀ st : HandlerState, ∀ e : CampfireErr,
      (createError st e).error_history.getLast? = some e)
    ∧ (∀ h : List CampfireErr, ∀ e : CampfireErr,
        h.length ≤ maxHistorySize → (trackError h e).length ≤ maxHistorySize)
    ∧ (∀ ops : List CampfireErr,
        (ops.foldl trackError []).length ≤ maxHistorySize) := by
  refine ⟨?_, fun h e hle => trackError_length_le e hle, ?_⟩
  · intro st e
    show (trackError st.error_history e).getLast? = some e
    unfold trackError
    by_cases hover : (st.error_history ++ [e]).length > maxHistorySize
    · simp only [hover, if_pos]
      have hlen : (st.error_history ++ [e]).length - maxHistorySize
          ≤ st.error_history.length := by
        simp only [List.length_append, List.length_singleton]
        have : maxHistorySize > 0 := by decide
        omega
      rw [drop_append_le hlen]
      exact getLastQ_concat _ _
    · simp only [hover, if_neg, not_false_iff]
      exact getLastQ_concat _ _
  · intro ops
    have key : ∀ h : List CampfireErr, h.length ≤ maxHistorySize →
        (ops.foldl trackError h).length ≤ maxHistorySize := by
      induction ops with
      | nil => intro h hle; simpa using hle
      | cons e es ih =>
        intro h hle
        exact ih (trackError h e) (trackError_length_le e hle)
    exact key [] (by simp [maxHistorySize])

def errC9a : CampfireErr :=
  ⟨"security_validation", "critical", "SECURITY_X_FAILED", "m", "um", "tm", [], false⟩
def errC9b : CampfireErr :=
  ⟨"processing", "high", "PROCESSING_Y_FAILED", "m2", "um2", "tm2", ["retry"], true⟩

/-- Witness for C9: a concrete handler state and a concrete operation
sequence. -/
theorem c9_witness :
    (createError ⟨[errC9a], []⟩ errC9b).error_history.getLast? = some errC9b
    ∧ ([errC9a].length ≤ maxHistorySize
        ∧ (trackError [errC9a] errC9b).length ≤ maxHistorySize)
    ∧ ([errC9a, errC9b].foldl trackError []).length ≤ maxHistorySize := by
  refine ⟨c9_bounded_error_history.1 ⟨[errC9a], []⟩ errC9b,
    ⟨by decide, c9_bounded_error_history.2.1 [errC9a] errC9b (by decide)⟩,
    c9_bounded_error_history.2.2 [errC9a, errC9b]⟩

/-- C8.  When the generation call reports an error, the loader
`GenericCamper.process_task` and the DevTeam `RequirementsGathererCamper.
process_task` both return (rather than raise) a Response whose content is an
explanatory error message and whose `confidence_score` is exactly 0.1; in
particular the collaboration loop that invokes them continues with the next
role. -/
theorem c8_worker_failure_degrades :
    (∀ cfg : CamperCfg, ∀ osType e : String,
      genericProcessTask cfg osType (.error e)
        = { camper_role := cfg.role, response_type := "suggestion",
            content := "Error in " ++ cfg.role ++ ": " ++ e,
            files_to_create := [], commands_to_execute := [],
            confidence_score := q01, specializations := cfg.specializations })
    ∧ (∀ e : String,
        reqGathererProcessTask (.error e)
          = { camper_role := "RequirementsGatherer", response_type := "suggestion",
              content := "Error analyzing requirements: " ++ e,
              files_to_create := [], commands_to_execute := [],
              confidence_score := q01 }) := by
  constructor
  · intro cfg osType e
    have hq : ¬ (q01 = 0) := by decide
    simp [genericProcessTask, formatResponseG, hq]
  · intro e
    have hq : ¬ (q01 = 0) := by decide
    simp [reqGathererProcessTask, formatResponseDT, hq]

/-! ### C1: path traversal and workspace boundary -/

def unpackedC1x : Unpacked :=
  { torch := ⟨"generate_code", "edit the file", "linux", "/ws",
      [⟨"../ws2/x", "y", "text/plain", "t"⟩], ⟨none, [], []⟩⟩,
    file_paths := ["../ws2/x"],
    file_contents := [("../ws2/x", "y")],
    file_types := [("../ws2/x", "text/plain")],
    task_assertions := "edit the file",
    workspace_root := "/ws", os_type := "linux", current_file := none,
    project_structure := [], terminal_history := [], metadata := [] }

/-- C1 counterexample.  With workspace root `/ws` and attachment path
`../ws2/x`, the normalized join resolves to `/ws2/x`, which is not a
descendant of the resolved workspace root `/ws` — yet
`_validate_workspace_boundary` records no error and the
`workspace_boundary` check stays `passed`, because the source compares
rendered paths with a raw string `startswith` and `"/ws"` is a string
prefix of `"/ws2/x"`.  (The path is still rejected overall, but only by the
`path_traversal` check.) -/
theorem c1_counterexample :
    resolvePath ["home"] (joinPath ⟨true, resolvePath ["home"] (parsePath "/ws")⟩ "../ws2/x")
      = ["ws2", "x"]
    ∧ ¬ (resolvePath ["home"] (parsePath "/ws")
          <+: resolvePath ["home"] (joinPath ⟨true, resolvePath ["home"] (parsePath "/ws")⟩ "../ws2/x"))
    ∧ validateWorkspaceBoundary ["home"] unpackedC1x.file_paths unpackedC1x.workspace_root = []
    ∧ (securityVerdict ["home"] unpackedC1x).checks.workspace_boundary.status = "passed"
    ∧ (securityVerdict ["home"] unpackedC1x).checks.workspace_boundary.details = [] := by
  refine ⟨by decide, ?_, by decide, by decide, by decide⟩
  rw [← List.isPrefixOf_iff_prefix]
  decide

/-- C1, amended.  Any attachment path containing a traversal sequence
(`../`, `..\`, or a URL-encoded variant) is recorded under the
`path_traversal` check and makes the verdict insecure; so is any path with
an absolute prefix.  A path whose normalized join with the workspace root
does not have the rendered resolved workspace root as a *string prefix*
produces a workspace-boundary error and makes the verdict insecure. -/
theorem c1_amended_path_validation (cwd : List String) (u : Unpacked) (p : String)
    (hp : p ∈ u.file_paths) :
    (travSeqB p = true →
      ("Path traversal attempt detected in: " ++ p) ∈ (securityVerdict cwd u).errors
      ∧ (securityVerdict cwd u).checks.path_traversal.status = "failed"
      ∧ (securityVerdict cwd u).secure = false)
    ∧ (absPrefixB p = true →
      ("Absolute path not allowed: " ++ p) ∈ (securityVerdict cwd u).errors
      ∧ (securityVerdict cwd u).checks.path_traversal.status = "failed"
      ∧ (securityVerdict cwd u).secure = false)
    ∧ (u.workspace_root ≠ "" → wsPrefixB cwd u.workspace_root p = false →
      ("File outside workspace boundary: " ++ p) ∈ (securityVerdict cwd u).errors
      ∧ (securityVerdict cwd u).checks.workspace_boundary.status = "failed"
      ∧ (securityVerdict cwd u).secure = false) := by
  refine ⟨?_, ?_, ?_⟩
  · intro htrav
    have hitem : ("Path traversal attempt detected in: " ++ p) ∈ pathTraversalErrs p := by
      simp [pathTraversalErrs, htrav]
    have hval : ("Path traversal attempt detected in: " ++ p)
        ∈ validatePathTraversal u.file_paths := mem_concatMap hp hitem
    have herr : ("Path traversal attempt detected in: " ++ p) ∈ verdictErrors cwd u := by
      simp only [verdictErrors, List.mem_append]
      tauto
    refine ⟨herr, ?_, not_secure_of_mem_errors herr⟩
    exact mkCheck_status_failed hval
  · intro habs
    have hitem : ("Absolute path not allowed: " ++ p) ∈ pathTraversalErrs p := by
      simp [pathTraversalErrs, habs]
    have hval : ("Absolute path not allowed: " ++ p)
        ∈ validatePathTraversal u.file_paths := mem_concatMap hp hitem
    have herr : ("Absolute path not allowed: " ++ p) ∈ verdictErrors cwd u := by
      simp only [verdictErrors, List.mem_append]
      tauto
    refine ⟨herr, ?_, not_secure_of_mem_errors herr⟩
    exact mkCheck_status_failed hval
  · intro hws hpre
    have hitem : ("File outside workspace boundary: " ++ p)
        ∈ boundaryErrs cwd u.workspace_root p := by
      simp [boundaryErrs, hpre]
    have hval : ("File outside workspace boundary: " ++ p)
        ∈ validateWorkspaceBoundary cwd u.file_paths u.workspace_root := by
      unfold validateWorkspaceBoundary
      rw [if_neg hws]
      exact mem_concatMap hp hitem
    have herr : ("File outside workspace boundary: " ++ p) ∈ verdictErrors cwd u := by
      simp only [verdictErrors, List.mem_append]
      tauto
    refine ⟨herr, ?_, not_secure_of_mem_errors herr⟩
    exact mkCheck_status_failed hval

def unpackedC1w : Unpacked :=
  { torch := ⟨"generate_code", "read it", "linux", "/ws",
      [⟨"../../etc/passwd", "z", "text/plain", "t"⟩], ⟨none, [], []⟩⟩,
    file_paths := ["../../etc/passwd"],
    file_contents := [("../../etc/passwd", "z")],
    file_types := [("../../etc/passwd", "text/plain")],
    task_assertions := "read it",
    workspace_root := "/ws", os_type := "linux", current_file := none,
    project_structure := [], terminal_history := [], metadata := [] }

/-- Witness for the amended C1 on the example given in the spec
(`workspaceRoot="/ws"`, path `"../../etc/passwd"`): the traversal clause and
the boundary clause both fire. -/
theorem c1_witness :
    travSeqB "../../etc/passwd" = true
    ∧ wsPrefixB [] "/ws" "../../etc/passwd" = false
    ∧ ("Path traversal attempt detected in: ../../etc/passwd")
        ∈ (securityVerdict [] unpackedC1w).errors
    ∧ ("File outside workspace boundary: ../../etc/passwd")
        ∈ (securityVerdict [] unpackedC1w).errors
    ∧ (securityVerdict [] unpackedC1w).secure = false := by
  have h := c1_amended_path_validation [] unpackedC1w "../../etc/passwd"
    (List.mem_singleton.mpr rfl)
  refine ⟨by decide, by decide, (h.1 (by decide)).1,
    (h.2.2 (by decide) (by decide)).1, (h.1 (by decide)).2.2⟩

/-! ### C4: verdict aggregation and pattern categories -/

/-- What the inner loop of one category appends to `errors`. -/
def catPatErrs (content source catName : String)
    (pats : List (String × List RTok)) : List String :=
  concatMap (fun pr =>
    if reSearch pr.2 content then
      if catName = "code_injection" ∨ catName = "system_paths" ∨ catName = "dangerous_commands" then
        ["Dangerous " ++ catName ++ " pattern in " ++ source ++ ": " ++ pr.1]
      else if catName = "network_access" ∨ catName = "file_system" then []
      else if catName = "sensitive_data" then
        ["Sensitive data pattern detected in " ++ source]
      else []
    else []) pats

/-- What the inner loop of one category appends to `warnings`. -/
def catPatWarns (content source catName : String)
    (pats : List (String × List RTok)) : List String :=
  concatMap (fun pr =>
    if reSearch pr.2 content then
      if catName = "code_injection" ∨ catName = "system_paths" ∨ catName = "dangerous_commands" then
        []
      else if catName = "network_access" ∨ catName = "file_system" then
        ["Potentially risky " ++ catName ++ " pattern in " ++ source ++ ": " ++ pr.1]
      else []
    else []) pats

theorem innerFold_eq (content source catName : String)
    (pats : List (String × List RTok)) (acc : List String × List String) :
    pats.foldl (checkPatternStep content source catName) acc
      = (acc.1 ++ catPatErrs content source catName pats,
         acc.2 ++ catPatWarns content source catName pats) := by
  induction pats generalizing acc with
  | nil => simp [catPatErrs, catPatWarns, concatMap]
  | cons pr ps ih =>
    rw [List.foldl_cons, ih]
    unfold checkPatternStep catPatErrs catPatWarns
    simp only [concatMap]
    split_ifs <;> simp [List.append_assoc]

theorem outerFold_eq (content source : String)
    (rules : List (String × List (String × List RTok)))
    (acc : List String × List String) :
    rules.foldl (fun a cat => cat.2.foldl (checkPatternStep content source cat.1) a) acc
      = (acc.1 ++ concatMap (fun cat => catPatErrs content source cat.1 cat.2) rules,
         acc.2 ++ concatMap (fun cat => catPatWarns content source cat.1 cat.2) rules) := by
  induction rules generalizing acc with
  | nil => simp [concatMap]
  | cons cat cats ih =>
    rw [List.foldl_cons, innerFold_eq, ih]
    simp [concatMap, List.append_assoc]

/-- Errors-side guard list: one message per matching pattern. -/
def guardMsgs (content : String) (pats : List (String × List RTok))
    (m : String × List RTok → String) : List String :=
  concatMap (fun pr => if reSearch pr.2 content then [m pr] else []) pats

theorem catPatErrs_eq_guard_of_err (content source catName : String)
    (pats : List (String × List RTok))
    (hname : catName = "code_injection" ∨ catName = "system_paths"
      ∨ catName = "dangerous_commands") :
    catPatErrs content source catName pats
      = guardMsgs content pats
          (fun pr => "Dangerous " ++ catName ++ " pattern in " ++ source ++ ": " ++ pr.1) := by
  unfold catPatErrs guardMsgs
  induction pats with
  | nil => rfl
  | cons pr ps ih =>
    simp only [concatMap, ih]
    by_cases hs : reSearch pr.2 content <;> simp [hs, hname]

theorem catPatErrs_eq_guard_sensitive (content source : String)
    (pats : List (String × List RTok)) :
    catPatErrs content source "sensitive_data" pats
      = guardMsgs content pats (fun _ => "Sensitive data pattern detected in " ++ source) := by
  unfold catPatErrs guardMsgs
  induction pats with
  | nil => rfl
  | cons pr ps ih =>
    simp only [concatMap, ih]
    by_cases hs : reSearch pr.2 content <;> simp [hs]

theorem catPatErrs_eq_nil_of_rest (content source catName : String)
    (pats : List (String × List RTok))
    (h1 : ¬ (catName = "code_injection" ∨ catName = "system_paths"
      ∨ catName = "dangerous_commands"))
    (h2 : catName ≠ "sensitive_data") :
    catPatErrs content source catName pats = [] := by
  unfold catPatErrs
  induction pats with
  | nil => rfl
  | cons pr ps ih =>
    simp only [concatMap, ih]
    by_cases hs : reSearch pr.2 content <;> simp [hs, h1, h2]

theorem catPatWarns_eq_guard_of_warn (content source catName : String)
    (pats : List (String × List RTok))
    (h1 : ¬ (catName = "code_injection" ∨ catName = "system_paths"
      ∨ catName = "dangerous_commands"))
    (h2 : catName = "network_access" ∨ catName = "file_system") :
    catPatWarns content source catName pats
      = guardMsgs content pats
          (fun pr => "Potentially risky " ++ catName ++ " pattern in " ++ source ++ ": " ++ pr.1) := by
  unfold catPatWarns guardMsgs
  induction pats with
  | nil => rfl
  | cons pr ps ih =>
    simp only [concatMap, ih]
    by_cases hs : reSearch pr.2 content <;> simp [hs, h1, h2]

theorem catPatWarns_eq_nil_of_rest (content source catName : String)
    (pats : List (String × List RTok))
    (h2 : ¬ (catName = "network_access" ∨ catName = "file_system")) :
    catPatWarns content source catName pats = [] := by
  unfold catPatWarns
  induction pats with
  | nil => rfl
  | cons pr ps ih =>
    simp only [concatMap, ih]
    by_cases hs : reSearch pr.2 content <;>
      by_cases he : (catName = "code_injection" ∨ catName = "system_paths"
        ∨ catName = "dangerous_commands") <;> simp [hs, he, h2]

/-- Source: `_check_content_for_patterns`, unrolled over the seven rule categories:
errors collect `system_paths`, `dangerous_commands`, `code_injection` and
`sensitive_data` matches; warnings collect `network_access` and
`file_system` matches; `path_traversal` content matches are classified into
neither list. -/
theorem checkContent_spec (c s : String) :
    checkContentForPatterns c s
      = (guardMsgs c systemPathsPatterns
            (fun pr => "Dangerous system_paths pattern in " ++ s ++ ": " ++ pr.1)
          ++ guardMsgs c dangerousCommandsPatterns
            (fun pr => "Dangerous dangerous_commands pattern in " ++ s ++ ": " ++ pr.1)
          ++ guardMsgs c codeInjectionPatterns
            (fun pr => "Dangerous code_injection pattern in " ++ s ++ ": " ++ pr.1)
          ++ guardMsgs c sensitiveDataPatterns
            (fun _ => "Sensitive data pattern detected in " ++ s),
         guardMsgs c networkAccessPatterns
            (fun pr => "Potentially risky network_access pattern in " ++ s ++ ": " ++ pr.1)
          ++ guardMsgs c fileSystemPatterns
            (fun pr => "Potentially risky file_system pattern in " ++ s ++ ": " ++ pr.1)) := by
  unfold checkContentForPatterns validationRules
  rw [outerFold_eq]
  simp only [concatMap, List.nil_append, List.append_nil]
  rw [catPatErrs_eq_nil_of_rest c s "path_traversal" _ (by decide) (by decide),
    catPatErrs_eq_guard_of_err c s "system_paths" _ (by decide),
    catPatErrs_eq_guard_of_err c s "dangerous_commands" _ (by decide),
    catPatErrs_eq_guard_of_err c s "code_injection" _ (by decide),
    catPatErrs_eq_nil_of_rest c s "network_access" _ (by decide) (by decide),
    catPatErrs_eq_nil_of_rest c s "file_system" _ (by decide) (by decide),
    catPatErrs_eq_guard_sensitive c s,
    catPatWarns_eq_nil_of_rest c s "path_traversal" _ (by decide),
    catPatWarns_eq_nil_of_rest c s "system_paths" _ (by decide),
    catPatWarns_eq_nil_of_rest c s "dangerous_commands" _ (by decide),
    catPatWarns_eq_nil_of_rest c s "code_injection" _ (by decide),
    catPatWarns_eq_guard_of_warn c s "network_access" _ (by decide) (by decide),
    catPatWarns_eq_guard_of_warn c s "file_system" _ (by decide) (by decide),
    catPatWarns_eq_nil_of_rest c s "sensitive_data" _ (by decide)]
  simp [List.append_assoc]

def unpackedC4 : Unpacked :=
  { torch := ⟨"generate_code", "hi", "linux", "/ws",
      [⟨"a.py", "x = 1 # ../see", "text/python", "t"⟩], ⟨none, [], []⟩⟩,
    file_paths := ["a.py"],
    file_contents := [("a.py", "x = 1 # ../see")],
    file_types := [("a.py", "text/python")],
    task_assertions := "hi",
    workspace_root := "/ws", os_type := "linux", current_file := none,
    project_structure := [], terminal_history := [], metadata := [] }

/-- C4 counterexample.  A file content matching a `path_traversal` rule
(the claim lists path traversal among the error categories for content
matches) adds neither an error nor a warning in
`_check_content_for_patterns`, and an envelope whose only pattern hit is
that match still gets a fully secure verdict. -/
theorem c4_counterexample :
    pathTraversalPatterns.any (fun pr => reSearch pr.2 "x = 1 # ../see") = true
    ∧ (checkContentForPatterns "x = 1 # ../see" "a.py").1 = []
    ∧ (checkContentForPatterns "x = 1 # ../see" "a.py").2 = []
    ∧ (securityVerdict [] unpackedC4).secure = true
    ∧ (securityVerdict [] unpackedC4).errors = [] := by
  refine ⟨by decide, by decide, by decide, by decide, by decide⟩

/-- A match in an error category of the content check. -/
def contentErrorMatch (c : String) : Bool :=
  (systemPathsPatterns ++ dangerousCommandsPatterns ++ codeInjectionPatterns
    ++ sensitiveDataPatterns).any (fun pr => reSearch pr.2 c)

/-- A match in a warning category of the content check. -/
def contentWarnMatch (c : String) : Bool :=
  (networkAccessPatterns ++ fileSystemPatterns).any (fun pr => reSearch pr.2 c)

theorem isEmpty_true_iff {l : List α} : l.isEmpty = true ↔ l = [] := by
  cases l <;> simp

theorem guardMsgs_eq_nil_iff {c : String} {pats : List (String × List RTok)}
    {m : String × List RTok → String} :
    guardMsgs c pats m = [] ↔ ∀ pr ∈ pats, reSearch pr.2 c = false :=
  concatMap_ite_singleton_eq_nil

/-- C4, amended.  The verdict is secure exactly when the collected
error list is empty.  In the content check, the error list is empty iff no
pattern from the error categories (`system_paths`, `dangerous_commands`,
`code_injection`, `sensitive_data`) matches, and the warning list is empty
iff no pattern from the warning categories (`network_access`,
`file_system`) matches — warnings never feed the error list, and content
matches of `path_traversal` patterns are recorded in neither list. -/
theorem c4_amended_verdict_aggregation :
    (∀ (cwd : List String) (u : Unpacked),
      ((securityVerdict cwd u).secure = true ↔ (securityVerdict cwd u).errors = []))
    ∧ (∀ c s : String,
        ((checkContentForPatterns c s).1 = [] ↔ contentErrorMatch c = false))
    ∧ (∀ c s : String,
        ((checkContentForPatterns c s).2 = [] ↔ contentWarnMatch c = false)) := by
  refine ⟨?_, ?_, ?_⟩
  · intro cwd u
    simp [securityVerdict, isEmpty_true_iff]
  · intro c s
    rw [checkContent_spec]
    simp only [List.append_eq_nil, guardMsgs_eq_nil_iff, contentErrorMatch,
      List.any_append, Bool.or_eq_false_iff, List.any_eq_false, Bool.not_eq_true]
  · intro c s
    rw [checkContent_spec]
    simp only [List.append_eq_nil, guardMsgs_eq_nil_iff, contentWarnMatch,
      List.any_append, Bool.or_eq_false_iff, List.any_eq_false, Bool.not_eq_true]

/-! ### C3: the audit gates -/

theorem ite_nil_eq_nil_iff {c : Prop} [Decidable c] {l : List α} :
    (if c then l else []) = [] ↔ (c → l = []) := by
  split_ifs with h <;> simp [h]

theorem ite_singleton_eq_nil_iff {c : Prop} [Decidable c] {a : α} :
    (if c then [a] else []) = ([] : List α) ↔ ¬ c := by
  split_ifs with h <;> simp [h]

theorem concatMap_ite_prop_singleton_eq_nil {p : α → Prop} [DecidablePred p]
    {m : α → β} {l : List α} :
    concatMap (fun x => if p x then [m x] else []) l = [] ↔ ∀ x ∈ l, ¬ p x := by
  induction l with
  | nil => simp [concatMap]
  | cons y ys ih =>
    simp only [concatMap, List.append_eq_nil, ih, List.forall_mem_cons,
      ite_singleton_eq_nil_iff]

/-- The dangerous-pattern scan of `verify_code_quality` over a batch:
security findings in generated code files. -/
def devteamDangerousFindings (rs : List CResponse) : List String :=
  concatMap (fun r =>
    if r.response_type = "code" then
      concatMap (fun f => checkSecurityVulnerabilities f.content f.path) r.files_to_create
    else []) rs

def rsC3 : List CResponse :=
  [{ camper_role := "BackEndDev", response_type := "code", content := "backend code",
     files_to_create := [⟨"a.py", "x = 1"⟩], commands_to_execute := [],
     confidence_score := q08 }]

/-- C3 counterexample.  A batch whose single response has confidence 0.8
and whose generated file `a.py` (`x = 1`) matches no dangerous pattern is
nonetheless BLOCKED by the DevTeam auditor, because the coverage check
requires the `RequirementsGatherer` and `OSExpert` roles to have run — so
"no low confidence and no dangerous pattern" does not imply a PASSED
gate. -/
theorem c3_counterexample :
    (∀ r ∈ rsC3, ¬ (r.confidence_score < q07))
    ∧ devteamDangerousFindings rsC3 = []
    ∧ (verifyCodeQuality rsC3).approved = false
    ∧ (devteamApplyGate "audit summary" rsC3).2 = "BLOCKED" := by
  refine ⟨by decide, by decide, by decide, by decide⟩

/-- C3, amended.  (i) Any response below the 0.7 confidence threshold
blocks the DevTeam auditor gate, (ii) so does any dangerous-pattern finding
in a generated code file; (iii) a blocked gate reports `BLOCKED` and marks
every `code`-type response in the final batch `publication_blocked` with the
shared reason `Failed auditor gate verification`; (iv) an approved gate
reports `PASSED` and only appends the audit summary, altering no response.
The gate may also block for other checks (empty files, bracket heuristics,
unsafe commands, missing essential roles).  (v) For the manifest-configured
gate (`_apply_audit_gate`, with an Auditor configured as gatekeeper),
approval holds *iff* no response is below threshold and (when security
validation is enabled) no configured dangerous substring occurs in any
generated code file. -/
theorem c3_amended_audit_gate :
    (∀ (rs : List CResponse) (r : CResponse), r ∈ rs → r.confidence_score < q07 →
      (verifyCodeQuality rs).approved = false)
    ∧ (∀ (rs : List CResponse) (r : CResponse) (f : FileSpec), r ∈ rs →
        r.response_type = "code" → f ∈ r.files_to_create →
        checkSecurityVulnerabilities f.content f.path ≠ [] →
        (verifyCodeQuality rs).approved = false)
    ∧ (∀ (s : String) (rs : List CResponse), (verifyCodeQuality rs).approved = false →
        (devteamApplyGate s rs).2 = "BLOCKED"
        ∧ ∀ r2 ∈ (devteamApplyGate s rs).1, r2.response_type = "code" →
            r2.publication_blocked = true
            ∧ r2.block_reason = some "Failed auditor gate verification")
    ∧ (∀ (s : String) (rs : List CResponse), (verifyCodeQuality rs).approved = true →
        (devteamApplyGate s rs).1 = rs ++ [devteamAuditSummaryResponse s true]
        ∧ (devteamApplyGate s rs).2 = "PASSED")
    ∧ (∀ (cfg : LoaderCfg) (rs : List CResponse),
        cfg.roles.contains "Auditor" = true → cfg.auditorGatekeeper = true →
        ((applyAuditGate cfg rs).approved = true ↔
          (∀ r ∈ rs, ¬ (r.confidence_score < q07))
          ∧ (cfg.enableSecurityValidation = true →
              ∀ r ∈ rs, r.response_type = "code" →
                ∀ f ∈ r.files_to_create, ∀ p ∈ cfg.dangerousPatterns,
                  strContains (strLower f.content) (strLower p) = false))) := by
  refine ⟨?_, ?_, ?_, ?_, ?_⟩
  · intro rs r hmem hconf
    have hitem : lowConfMsg r ∈ responseIssues r := by
      simp [responseIssues, hconf]
    have hin : lowConfMsg r ∈ verifyIssues rs := by
      exact List.mem_append_left _ (mem_concatMap hmem hitem)
    simp [verifyCodeQuality, isEmpty_false_of_mem hin]
  · intro rs r f hmem hcode hf hsec
    rcases List.exists_mem_of_ne_nil _ hsec with ⟨a, ha⟩
    have hafi : a ∈ auditorFileIssues f := by
      unfold auditorFileIssues
      exact List.mem_append_left _ (List.mem_append_right _ ha)
    have hitem : a ∈ responseIssues r := by
      unfold responseIssues
      rw [hcode]
      simp only [if_pos rfl]
      exact List.mem_append_right _ (mem_concatMap hf hafi)
    have hin : a ∈ verifyIssues rs :=
      List.mem_append_left _ (mem_concatMap hmem hitem)
    simp [verifyCodeQuality, isEmpty_false_of_mem hin]
  · intro s rs happ
    refine ⟨by simp [devteamApplyGate, happ], ?_⟩
    intro r2 hr2 hcode
    simp only [devteamApplyGate, happ, Bool.not_false, if_true] at hr2
    rcases List.mem_map.mp hr2 with ⟨r0, _, rfl⟩
    unfold devteamMarkBlocked at hcode ⊢
    by_cases h0 : r0.response_type = "code"
    · simp [h0]
    · rw [if_neg h0] at hcode
      exact absurd hcode h0
  · intro s rs happ
    constructor
    · simp [devteamApplyGate, happ]
    · simp [devteamApplyGate, happ]
  · intro cfg rs haud hgate
    simp only [applyAuditGate, haud, hgate, Bool.not_true, Bool.false_eq_true,
      if_false, isEmpty_true_iff, List.append_eq_nil]
    apply and_congr
    · exact concatMap_ite_prop_singleton_eq_nil
    · rw [ite_nil_eq_nil_iff]
      constructor
      · intro h hsec r hr hcode f hf p hp
        have h2 := (concatMap_eq_nil_iff.mp (h hsec)) r hr
        rw [if_pos hcode] at h2
        have h3 := (concatMap_eq_nil_iff.mp h2) f hf
        exact (concatMap_ite_singleton_eq_nil.mp h3) p hp
      · intro h hsec
        apply concatMap_eq_nil_iff.mpr
        intro r hr
        by_cases hcode : r.response_type = "code"
        · rw [if_pos hcode]
          apply concatMap_eq_nil_iff.mpr
          intro f hf
          exact concatMap_ite_singleton_eq_nil.mpr (fun p hp => h hsec r hr hcode f hf p hp)
        · rw [if_neg hcode]

def rsC3low : List CResponse :=
  [{ camper_role := "BackEndDev", response_type := "code", content := "weak",
     files_to_create := [⟨"a.py", "x = 1"⟩], commands_to_execute := [],
     confidence_score := q01 }]

def rsC3vuln : List CResponse :=
  [{ camper_role := "BackEndDev", response_type := "code", content := "vuln",
     files_to_create := [⟨"a.py", "eval(user_input)"⟩], commands_to_execute := [],
     confidence_score := q08 }]

def rsC3ok : List CResponse :=
  [{ camper_role := "RequirementsGatherer", response_type := "suggestion",
     content := "requirements", files_to_create := [], commands_to_execute := [],
     confidence_score := q08 },
   { camper_role := "OSExpert", response_type := "suggestion",
     content := "stack", files_to_create := [], commands_to_execute := [],
     confidence_score := q08 }]

def cfgC3v : LoaderCfg := ⟨["Auditor"], true, true, ["rm -rf"]⟩

def rsC3v : List CResponse :=
  [{ camper_role := "BackEndDev", response_type := "code", content := "fine",
     files_to_create := [⟨"b.py", "print(1)"⟩], commands_to_execute := [],
     confidence_score := q08 }]

/-- Witness for the amended C3 at concrete batches: a low-confidence batch
blocks, an `eval(`-bearing file blocks, a blocked gate reports `BLOCKED` and
marks the code response, a clean batch passes unaltered, and the
manifest-configured gate approves a clean batch. -/
theorem c3_witness :
    (verifyCodeQuality rsC3low).approved = false
    ∧ (verifyCodeQuality rsC3vuln).approved = false
    ∧ (devteamApplyGate "s" rsC3low).2 = "BLOCKED"
    ∧ (devteamMarkBlocked
        { camper_role := "BackEndDev", response_type := "code", content := "weak",
          files_to_create := [⟨"a.py", "x = 1"⟩], commands_to_execute := [],
          confidence_score := q01 }).publication_blocked = true
    ∧ (devteamApplyGate "s" rsC3ok).1 = rsC3ok ++ [devteamAuditSummaryResponse "s" true]
    ∧ (devteamApplyGate "s" rsC3ok).2 = "PASSED"
    ∧ (applyAuditGate cfgC3v rsC3v).approved = true := by
  have h1 := c3_amended_audit_gate.1 rsC3low
    { camper_role := "BackEndDev", response_type := "code", content := "weak",
      files_to_create := [⟨"a.py", "x = 1"⟩], commands_to_execute := [],
      confidence_score := q01 }
    (List.mem_singleton.mpr rfl) (by decide)
  have h2 := c3_amended_audit_gate.2.1 rsC3vuln
    { camper_role := "BackEndDev", response_type := "code", content := "vuln",
      files_to_create := [⟨"a.py", "eval(user_input)"⟩], commands_to_execute := [],
      confidence_score := q08 }
    ⟨"a.py", "eval(user_input)"⟩
    (List.mem_singleton.mpr rfl) rfl (List.mem_singleton.mpr rfl) (by decide)
  have h3 := (c3_amended_audit_gate.2.2.1 "s" rsC3low h1).1
  have h4 := c3_amended_audit_gate.2.2.2.1 "s" rsC3ok (by decide)
  have h5 := (c3_amended_audit_gate.2.2.2.2 cfgC3v rsC3v (by decide) (by decide)).mpr
    (by decide)
  exact ⟨h1, h2, h3, by decide, h4.1, h4.2, h5⟩

/-! ### C2: what the orchestrator raises on a failed verdict -/

def pbC2 : PartyBox :=
  ⟨⟨"generate_code", "write code", "linux", "/ws",
    [⟨"../etc/x", "print(1)", "text/python", "t"⟩], ⟨none, [], []⟩⟩, []⟩

def collabC2 : Validated → Except PyExc ProcessedData :=
  fun _ => .ok { camper_responses := [] }

set_option maxRecDepth 200000 in
/-- C2, code behaviour at the failing input.  For an envelope whose
attachment path `../etc/x` fails validation, `receive_party_box` surfaces a
`RiverboatProcessingError` wrapping the message — not any of the
`SecurityValidationError` classes — because the `except
SecurityValidationError` clause in `riverboat_system.py` names the class local to that module while `SecurityCampfire.process` raises the class local to
`processing_campfires.py`.  Neither the collaborate stage nor the package
stage runs, and nothing is cached or persisted as outgoing. -/
theorem c2_code_behavior :
    (receivePartyBox [] "t0" (some collabC2) (fun t => t) pbC2 [] 0).1
      = .error (.rbProcessing
          ("Riverboat processing failed: Security validation failed: "
            ++ "Security validation failed with 2 errors"))
    ∧ (match (receivePartyBox [] "t0" (some collabC2) (fun t => t) pbC2 [] 0).1 with
        | .error e => e.isSecurityClass
        | .ok _ => false) = false
    ∧ REvent.stageCollaborate ∉ (receivePartyBox [] "t0" (some collabC2) (fun t => t) pbC2 [] 0).2.1
    ∧ REvent.stageOffload ∉ (receivePartyBox [] "t0" (some collabC2) (fun t => t) pbC2 [] 0).2.1
    ∧ REvent.cacheSet ∉ (receivePartyBox [] "t0" (some collabC2) (fun t => t) pbC2 [] 0).2.1
    ∧ REvent.storeOutgoing ∉ (receivePartyBox [] "t0" (some collabC2) (fun t => t) pbC2 [] 0).2.1
    ∧ (receivePartyBox [] "t0" (some collabC2) (fun t => t) pbC2 [] 0).2.2 = [] := by
  refine ⟨by decide, by decide, by decide, by decide, by decide, by decide, by decide⟩

/-! ### C6: what the packaged envelope carries -/

def pbC6 : PartyBox :=
  ⟨⟨"generate_code", "make an app", "windows", "/ws", [],
    ⟨some "main.py", ["main.py"], []⟩⟩, []⟩

def cfgC6 : LoaderCfg := ⟨[], false, false, []⟩

def runC6 : String → List CResponse → CResponse := fun r _ => formatResponseDT r "x"

def wfC6 : Workflow := ⟨[], false, false, some "code generation"⟩

/-- The full unpack → validate → collaborate → package composition at the
C6 input. -/
def pipelineC6 : Except PyExc ResponsePartyBox :=
  (securityProcess [] (unpack pbC6)).bind (fun _ =>
    (executeWorkflow cfgC6 runC6 wfC6).map (fun pd => offload "t0" pd))

/-- C6, code behaviour at the failing input.  An inbound envelope with
`workspaceRoot="/ws"`, `targetOS="windows"` and `context.currentFile=
"main.py"` passes the whole pipeline, but the outgoing envelope carries the
defaults of the offloader (`""`, `"linux"`, `None`): the collaborate stage
output dictionary contains only `camper_responses` and workflow metadata,
so `OffloadingCampfire.process` never sees the inbound values. -/
theorem c6_code_behavior :
    pipelineC6.map (fun r =>
        (r.torch.workspace_root, r.torch.os, r.torch.context.current_file))
      = .ok ("", "linux", none)
    ∧ pbC6.torch.workspace_root = "/ws"
    ∧ pbC6.torch.os = "windows"
    ∧ pbC6.torch.context.current_file = some "main.py" := by
  refine ⟨by decide, rfl, rfl, rfl⟩

/-! ### C5: cached idempotence -/

/-- Reading back a freshly written cache entry before its expiry. -/
theorem cacheGet_setF_same (c : Cache) (k : String) (v : ResponsePartyBox)
    (expiry now : Nat) (h : now < expiry) :
    cacheGet (cacheSetF c k v expiry) k now = some v := by
  simp [cacheGet, cacheSetF, List.find?_cons, h]

/-- C5.  If a request completes the pipeline successfully (cache miss on
entry), then any second request with the same `(claim, task)` fingerprint
arriving before the 1800-second TTL expires is answered verbatim from the
cache: the returned Package is the identical value, the observable effects
are only the incoming store, the context processing and the cache hit — no
pipeline stage runs — and the result does not depend on the collaborate
stage at all (so no generation-service call is made). -/
theorem c5_cached_idempotence
    (cwd : List String) (nowS1 : String)
    (collab : Validated → Except PyExc ProcessedData)
    (hashFn : String → String) (pb1 pb2 : PartyBox)
    (cache0 cache1 : Cache) (now1 now2 : Nat)
    (P : ResponsePartyBox) (tr1 : List REvent)
    (hclaim : pb2.torch.claim = pb1.torch.claim)
    (htask : pb2.torch.task = pb1.torch.task)
    (hmiss : cacheGet cache0 (cacheKey hashFn pb1) now1 = none)
    (hfirst : receivePartyBox cwd nowS1 (some collab) hashFn pb1 cache0 now1
      = (.ok P, tr1, cache1))
    (httl : now2 < now1 + 1800) :
    ∀ (collab2 : Validated → Except PyExc ProcessedData) (nowS2 : String),
      receivePartyBox cwd nowS2 (some collab2) hashFn pb2 cache1 now2
        = (.ok P, [REvent.storeIncoming, REvent.processContext, REvent.cacheHit], cache1) := by
  intro collab2 nowS2
  have hkey : cacheKey hashFn pb2 = cacheKey hashFn pb1 := by
    simp [cacheKey, hclaim, htask]
  -- invert the first run: only the full-pipeline branch returns `.ok`
  -- after a cache miss, so `cache1` holds the response under the key
  simp only [receivePartyBox] at hfirst
  rw [hmiss] at hfirst
  rcases hsp : securityProcess cwd (unpack pb1) with e | v
  · rw [hsp] at hfirst
    simp at hfirst
  · rw [hsp] at hfirst
    simp only [] at hfirst
    rcases hsec : v.verdict.secure with _ | _
    · simp [hsec] at hfirst
    · simp only [hsec, Bool.not_true, Bool.false_eq_true, if_false] at hfirst
      rcases hco : collab v with e2 | pd
      · simp [hco] at hfirst
      · simp only [hco, Prod.mk.injEq] at hfirst
        obtain ⟨hP, htr, hcache⟩ := hfirst
        -- the second run hits the cache
        subst hcache
        rw [Except.ok.injEq] at hP
        subst hP
        simp [receivePartyBox, hkey,
          cacheGet_setF_same cache0 (cacheKey hashFn pb1) (offload nowS1 pd)
            (now1 + 1800) now2 httl]

def pbC5 : PartyBox :=
  ⟨⟨"generate_code", "add two numbers", "linux", "/ws", [], ⟨none, [], []⟩⟩, []⟩

def collabC5 : Validated → Except PyExc ProcessedData :=
  fun _ => .ok { camper_responses := [] }

def respC5 : ResponsePartyBox := offload "t1" { camper_responses := [] }

def trC5 : List REvent :=
  [REvent.storeIncoming, REvent.processContext, REvent.publishReceived,
   REvent.stageUnpack, REvent.stageValidate, REvent.stageCollaborate,
   REvent.stageOffload, REvent.cacheSet, REvent.storeOutgoing,
   REvent.publishCompleted]

def cacheC5 : Cache := cacheSetF [] (cacheKey (fun t => t) pbC5) respC5 1810

set_option maxRecDepth 200000 in
/-- Witness for C5: a concrete first run at `now = 10` populates the cache,
and a concrete second run at `now = 20` with a different collaborate stage
returns the identical Package with only the cache-hit effects. -/
theorem c5_witness :
    cacheGet [] (cacheKey (fun t => t) pbC5) 10 = none
    ∧ receivePartyBox [] "t1" (some collabC5) (fun t => t) pbC5 [] 10
        = (.ok respC5, trC5, cacheC5)
    ∧ (20 : Nat) < 10 + 1800
    ∧ receivePartyBox [] "t2" (some (fun _ => .error (.otherExc "never called")))
        (fun t => t) pbC5 cacheC5 20
        = (.ok respC5, [REvent.storeIncoming, REvent.processContext, REvent.cacheHit], cacheC5) := by
  have hmiss : cacheGet [] (cacheKey (fun t => t) pbC5) 10 = none := by decide
  have hfirst : receivePartyBox [] "t1" (some collabC5) (fun t => t) pbC5 [] 10
      = (.ok respC5, trC5, cacheC5) := by decide
  refine ⟨hmiss, hfirst, by decide, ?_⟩
  exact c5_cached_idempotence [] "t1" collabC5 (fun t => t) pbC5 pbC5 [] cacheC5 10 20
    respC5 trC5 rfl rfl hmiss hfirst (by decide)
    (fun _ => .error (.otherExc "never called")) "t2"

end Campfire
